import Mathlib

/-!
# Protocol gateway of the serial-to-TCP bridge

A shallow embedding of `src/protocol/protocolGateway.go`.

* Bytes and machine integers are natural numbers; the only arithmetic the
  gateway does on them is bit masking and the little-endian decoding of the
  port and of the checksum, none of which can overflow.
* Channels and connections are heap objects in Go.  They are referred to here
  by numeric handles, `none` standing for the nil handle, and every operation
  on them is recorded as an `Event`, in program order.
* The goroutines `packetReader` and `packetSender` are modelled one at a time,
  each driven by the list of answers its blocking operations receive.  Whether
  the publisher takes an ack that the dispatcher hands over is such an answer
  too.
* Calls to `log` and to the wait group `session` have no modelled effect.
-/

namespace protocol

/-! ## Data model -/

/-- Connection states of the transport, the values of the `state` field. -/
inductive ConnState
  | Disconnected
  | Connected
  | TransportNotReady
  deriving DecidableEq, Repr

/-- A protocol packet.  A Go composite literal such as
`Packet{command: disconnect}` leaves the other fields at their zero value. -/
structure Packet where
  length : Nat := 0
  command : Nat := 0
  payload : List Nat := []
  crc : Nat := 0
  deriving DecidableEq, Repr

/-- The command constants.  Their declaration lies outside
`protocolGateway.go`, so their values are a parameter of the model. -/
structure Commands where
  connect : Nat
  connack : Nat
  disconnect : Nat
  publish : Nat
  acknowledge : Nat
  deriving DecidableEq, Repr

/-- The five command codes are pairwise different.  For the four that label
the cases of the `switch` in `handleRxPacket` Go itself demands it: a switch
with duplicate constant cases does not compile. -/
def Commands.Distinct (k : Commands) : Prop :=
  k.publish ≠ k.acknowledge ∧ k.publish ≠ k.connect ∧ k.publish ≠ k.disconnect ∧
  k.acknowledge ≠ k.connect ∧ k.acknowledge ≠ k.disconnect ∧ k.connect ≠ k.disconnect ∧
  k.connack ≠ k.publish ∧ k.connack ≠ k.acknowledge ∧ k.connack ≠ k.connect ∧
  k.connack ≠ k.disconnect

instance (k : Commands) : Decidable k.Distinct := by
  unfold Commands.Distinct; infer_instance

/-- The gateway fields that `protocolGateway.go` reads and writes.
`txBuff` and `uStream` hold a handle or nil.  `chans` is not a Go field: it
counts the channels made so far and yields the handle of the next `make`.
`rxClosed` is not a Go field either: it records whether the channel
`g.rxBuff`, which `Listen` makes, has been closed. -/
structure gateway where
  state : ConnState
  expectedRxSeqFlag : Bool
  txBuff : Option Nat
  uStream : Option Nat
  chans : Nat
  rxClosed : Bool
  deriving DecidableEq, Repr

/-- Observable operations on channels, connections and goroutines. -/
inductive Event
  /-- The statement `g.txBuff = make(chan Packet, 2)`. -/
  | makeChan (ch : Nat)
  /-- The statement `go g.txSerial(g.dropGateway)`. -/
  | goTxSerial
  /-- The statement `go g.packetSender()`. -/
  | goPacketSender
  /-- The call `net.Dial("tcp", addr)`. -/
  | dial (addr : String)
  /-- The send `g.txBuff <- p` on the channel `ch`. -/
  | send (ch : Nat) (p : Packet)
  /-- The call `close(g.txBuff)`. -/
  | closeChan (ch : Nat)
  /-- The call `g.uStream.Write(data)`. -/
  | write (conn : Nat) (data : List Nat)
  /-- The call `g.uStream.Close()`. -/
  | closeConn (conn : Nat)
  /-- The send `g.acknowledgeEvent <- flag`. -/
  | ackEvent (flag : Bool)
  /-- The call `g.com.Close()`. -/
  | closeCom
  /-- The call `close(g.rxBuff)`. -/
  | closeRx
  deriving DecidableEq, Repr

/-- The surroundings of the dispatcher as it meets them: `dial` answers
`net.Dial` with a connection handle or with nil and an error, `write` tells
whether `Write` on a connection returns without error, and `ackTaken` tells
whether a send on `g.acknowledgeEvent` is taken.  That channel is unbuffered
and its only receiver is the `select` of `PUB_LOOP`, so the send is taken only
when the publisher is waiting there. -/
structure Upstream where
  dial : String → Option Nat
  write : Nat → List Nat → Bool
  ackTaken : Bool

/-- How a call ends: it returns (`done`), it blocks forever on a send to a nil
channel (`blocked`), it panics, on a nil connection or on closing a channel
that is closed already (`panicked`), or it stays in the send on
`g.acknowledgeEvent` because no receiver takes it (`stalled`).  Each case
carries the gateway state and the events up to that point. -/
inductive Outcome
  | done (g : gateway) (evs : List Event)
  | blocked (g : gateway) (evs : List Event)
  | panicked (g : gateway) (evs : List Event)
  | stalled (g : gateway) (evs : List Event)
  deriving DecidableEq, Repr

/-- The events of an outcome. -/
def Outcome.events : Outcome → List Event
  | .done _ evs => evs
  | .blocked _ evs => evs
  | .panicked _ evs => evs
  | .stalled _ evs => evs

/-- The gateway state of an outcome. -/
def Outcome.gw : Outcome → gateway
  | .done g _ => g
  | .blocked g _ => g
  | .panicked g _ => g
  | .stalled g _ => g

/-- Puts earlier events in front of those of an outcome. -/
def Outcome.after (pre : List Event) : Outcome → Outcome
  | .done g evs => .done g (pre ++ evs)
  | .blocked g evs => .blocked g (pre ++ evs)
  | .panicked g evs => .panicked g (pre ++ evs)
  | .stalled g evs => .stalled g (pre ++ evs)

/-- The packets sent on outbound queues, each with its queue, in order. -/
def sent : List Event → List (Nat × Packet)
  | [] => []
  | .send ch p :: evs => (ch, p) :: sent evs
  | _ :: evs => sent evs

/-- The payloads written upstream, each with its connection, in order. -/
def written : List Event → List (Nat × List Nat)
  | [] => []
  | .write c d :: evs => (c, d) :: written evs
  | _ :: evs => written evs

/-- The addresses dialled, in order. -/
def dialled : List Event → List String
  | [] => []
  | .dial a :: evs => a :: dialled evs
  | _ :: evs => dialled evs

/-- The sequence flag of a packet: `(packet.command & 0x80) > 0`. -/
def seqFlag (packet : Packet) : Bool :=
  decide ((packet.command &&& 0x80) > 0)

/-- The state `Listen` sets up before it starts the framer. -/
def Listen : gateway :=
  { state := .Disconnected, expectedRxSeqFlag := false, txBuff := none,
    uStream := none, chans := 0, rxClosed := false }

/-- A gateway state is wired when, if Connected, it has an outbound queue and
an upstream connection.  The initial state is wired and every operation of
the dispatcher keeps it so (`handleRxPacket_wired`). -/
def gateway.Wired (g : gateway) : Prop :=
  g.state = .Connected → g.txBuff.isSome = true ∧ g.uStream.isSome = true

/-! ## Link lifecycle -/

/-- The method `dropLink`: closes the upstream connection if there is one,
closes and forgets the outbound queue if there is one, and sets the state to
`Disconnected`.  The handle `uStream` is left as it is. -/
def dropLink (g : gateway) : gateway × List Event :=
  let e1 : List Event :=
    match g.uStream with
    | some c => [.closeConn c]
    | none => []
  let e2 : List Event :=
    match g.txBuff with
    | some ch => [.closeChan ch]
    | none => []
  ({ g with txBuff := none, state := .Disconnected }, e1 ++ e2)

/-- The method `dropGateway`: `dropLink`, then the transport is closed, then
the inbound queue, and the state becomes `TransportNotReady`.  The call
`close(g.rxBuff)` panics when that channel is closed already; the state is
then the one `dropLink` has left. -/
def dropGateway (g : gateway) : Outcome :=
  let r := dropLink g
  if r.1.rxClosed then .panicked r.1 (r.2 ++ [.closeCom])
  else
    .done { r.1 with rxClosed := true, state := .TransportNotReady }
      (r.2 ++ [.closeCom, .closeRx])

/-! ## Session dispatcher -/

/-- The function `strconv.Itoa` on a non-negative integer. -/
def itoa (n : Nat) : String := String.mk (Nat.toDigits 10 n)

/-- The function `binary.LittleEndian.Uint16` on the first two bytes. -/
def uint16LE (b : List Nat) : Nat := b.getD 0 0 + 256 * b.getD 1 0

/-- The function `binary.LittleEndian.Uint32` on the first four bytes. -/
def uint32LE (b : List Nat) : Nat :=
  b.getD 0 0 + 256 * b.getD 1 0 + 65536 * b.getD 2 0 + 16777216 * b.getD 3 0

/-- The destination string built in the `connect` case: three times an octet
and a dot, the fourth octet, a colon, the port. -/
def dstStr (payload : List Nat) : String :=
  let port := uint16LE (payload.drop 4)
  let dst := (List.range 3).foldl
    (fun (acc : String) i => acc ++ itoa (payload.getD i 0) ++ ".") ""
  dst ++ itoa (payload.getD 3 0) ++ ":" ++ itoa port

/-- The method `handleRxPacket`. -/
def handleRxPacket (k : Commands) (env : Upstream) (g : gateway) (packet : Packet) :
    Outcome :=
  let rxSeqFlag : Bool := seqFlag packet
  let cmd := packet.command &&& 0x7F
  if cmd = k.publish then
    if g.state = .Connected then
      match g.txBuff with
      | none => .blocked g []
      | some ch =>
        let ack : Event := .send ch { command := k.acknowledge ||| (packet.command &&& 0x80) }
        if rxSeqFlag = g.expectedRxSeqFlag then
          let g1 := { g with expectedRxSeqFlag := !g.expectedRxSeqFlag }
          match g.uStream with
          | none => .panicked g1 [ack]
          | some c =>
            if env.write c packet.payload then
              .done g1 [ack, .write c packet.payload]
            else
              let r := dropLink g1
              .done r.1
                ([ack, .write c packet.payload, .send ch { command := k.disconnect }] ++ r.2)
        else .done g [ack]
    else .done g []
  else if cmd = k.acknowledge then
    if g.state = .Connected then
      if env.ackTaken then .done g [.ackEvent rxSeqFlag]
      else .stalled g []
    else .done g []
  else if cmd = k.connect then
    if g.state ≠ .Disconnected then .done g []
    else if packet.payload.length ≠ 6 then .done g []
    else
      let dst := dstStr packet.payload
      let ch := g.chans
      let g1 := { g with txBuff := some ch, expectedRxSeqFlag := false, chans := g.chans + 1 }
      match env.dial dst with
      | none =>
        let r := dropLink { g1 with uStream := none }
        .done r.1
          ([.makeChan ch, .goTxSerial, .dial dst, .send ch { command := k.disconnect }] ++ r.2)
      | some c =>
        .done { g1 with uStream := some c, state := .Connected }
          [.makeChan ch, .goTxSerial, .dial dst, .goPacketSender,
            .send ch { command := k.connack }]
  else if cmd = k.disconnect then
    if g.state = .Connected then
      let r := dropLink g
      .done r.1 r.2
    else .done g []
  else .done g []

/-! ## Packet framer -/

/-- What a receive from `g.rxBuff` meets next: a byte, or a silence that
outlasts the 100ms timer of a `select`.  The end of the list stands for the
closed channel. -/
inductive Rx
  | byte (b : Nat)
  | timeout
  deriving DecidableEq, Repr

/-- Result of a read inside a `select` with a timer. -/
inductive Timed (α : Type)
  | got (a : α) (rest : List Rx)
  | timedOut (rest : List Rx)
  | closed
  deriving Repr

/-- The receive of the length byte, which has no timer: it waits through any
silence for the next byte, or finds the channel closed. -/
def awaitByte : List Rx → Option (Nat × List Rx)
  | [] => none
  | .timeout :: rest => awaitByte rest
  | .byte b :: rest => some (b, rest)

/-- One `select` between a receive from `g.rxBuff` and the 100ms timer. -/
def selectByte : List Rx → Timed Nat
  | [] => .closed
  | .timeout :: rest => .timedOut rest
  | .byte b :: rest => .got b rest

/-- A loop of `n` timed receives whose bytes are appended to `acc`; a timeout
or a closed channel ends it early. -/
def selectBytes : Nat → List Nat → List Rx → Timed (List Nat)
  | 0, acc, input => .got acc input
  | n + 1, acc, input =>
    match selectByte input with
    | .got b rest => selectBytes n (acc ++ [b]) rest
    | .timedOut rest => .timedOut rest
    | .closed => .closed

/-- The reads of one frame, lines 47 to 95 of `packetReader`: length byte,
command byte, `int(p.length)-5` payload bytes (none when that is negative),
four checksum bytes decoded little-endian. -/
def receiveFrame (input : List Rx) : Timed Packet :=
  match awaitByte input with
  | none => .closed
  | some (length, rest) =>
    match selectByte rest with
    | .closed => .closed
    | .timedOut rest => .timedOut rest
    | .got command rest =>
      match selectBytes (length - 5) [] rest with
      | .closed => .closed
      | .timedOut rest => .timedOut rest
      | .got payload rest =>
        match selectBytes 4 [] rest with
        | .closed => .closed
        | .timedOut rest => .timedOut rest
        | .got rxCrc rest =>
          .got { length := length, command := command, payload := payload,
                 crc := uint32LE rxCrc } rest

/-- Result of one pass through `PACKET_RX_LOOP`: the loop goes on with a new
counter, gateway state and remaining input, or the goroutine ends. -/
inductive Pass
  | next (timeouts : Nat) (g : gateway) (rest : List Rx) (evs : List Event)
  | stop (o : Outcome)
  deriving Repr

/-- Lines 47 to 104 of `packetReader`: a frame is read, checked against
`calcCrc` and handed to `handleRxPacket`.  The method `calcCrc` is declared
outside `protocolGateway.go` and is a parameter. -/
def framePass (k : Commands) (env : Upstream) (calcCrc : Packet → Nat)
    (timeouts : Nat) (g : gateway) (input : List Rx) : Pass :=
  match receiveFrame input with
  | .closed => .stop (.done g [])
  | .timedOut rest => .next (timeouts + 1) g rest []
  | .got p rest =>
    if calcCrc p ≠ p.crc then .next (timeouts + 1) g rest []
    else
      match handleRxPacket k env g p with
      | .done g1 evs => .next 0 g1 rest evs
      | o => .stop o

/-- One pass through `PACKET_RX_LOOP`, lines 37 to 104: the escalation test on
the counter, then `framePass`. -/
def readerPass (k : Commands) (env : Upstream) (calcCrc : Packet → Nat)
    (timeouts : Nat) (g : gateway) (input : List Rx) : Pass :=
  if timeouts ≥ 5 then
    if g.state = .Connected then
      match g.txBuff with
      | none => .stop (.blocked g [])
      | some ch =>
        let r := dropLink g
        .stop (.done r.1 (.send ch { command := k.disconnect } :: r.2))
    else framePass k env calcCrc 0 g input
  else framePass k env calcCrc timeouts g input

/-- The loop `PACKET_RX_LOOP` run for at most `fuel` passes; `none` when the
passes are used up. -/
def readerLoop (k : Commands) (env : Upstream) (calcCrc : Packet → Nat) :
    Nat → Nat → gateway → List Rx → Option Outcome
  | 0, _, _, _ => none
  | fuel + 1, timeouts, g, input =>
    match readerPass k env calcCrc timeouts g input with
    | .stop o => some o
    | .next timeouts1 g1 rest evs =>
      (readerLoop k env calcCrc fuel timeouts1 g1 rest).map (Outcome.after evs)

/-- The method `packetReader` on the inbound stream `input`, started with the
counter at 0.  Every pass that goes on has consumed input, so one pass more
than the length of the input is enough. -/
def packetReader (k : Commands) (env : Upstream) (calcCrc : Packet → Nat)
    (g : gateway) (input : List Rx) : Option Outcome :=
  readerLoop k env calcCrc (input.length + 1) 0 g input

/-! ## Downstream publisher -/

/-- How the `select` of `PUB_LOOP` ends: a value `ack` received from
`g.acknowledgeEvent`, that channel found closed (`ok` false), or the 500ms
timer. -/
inductive AckWait
  | ack (flag : Bool)
  | closed
  | timeout
  deriving DecidableEq, Repr

/-- How a run of the publisher ends: the goroutine ended (`stop`), or the
answers ran out while it was waiting, with the sequence flag and retry counter
it had then (`waiting`). -/
inductive SenderEnd
  | stop (o : Outcome)
  | waiting (sequenceTxFlag : Bool) (retries : Nat) (g : gateway) (evs : List Event)
  deriving DecidableEq, Repr

/-- Result of `PUB_LOOP` for one packet: left by `break` with the remaining
answers, or the publisher ended. -/
inductive PubEnd
  | acked (rest : List AckWait) (evs : List Event)
  | ended (e : SenderEnd)
  deriving DecidableEq, Repr

/-- The events of a publisher run. -/
def SenderEnd.events : SenderEnd → List Event
  | .stop o => o.events
  | .waiting _ _ _ evs => evs

/-- Puts earlier events in front of those of a publisher run. -/
def SenderEnd.after (pre : List Event) : SenderEnd → SenderEnd
  | .stop o => .stop (o.after pre)
  | .waiting f r g evs => .waiting f r g (pre ++ evs)

/-- Puts earlier events in front of those of a `PUB_LOOP` result. -/
def PubEnd.after (pre : List Event) : PubEnd → PubEnd
  | .acked rest evs => .acked rest (pre ++ evs)
  | .ended e => .ended (e.after pre)

/-- The loop `PUB_LOOP` for the packet `p`, lines 204 to 222 of
`packetSender`: each pass sends the packet on `g.txBuff` (blocking forever if
that is nil), then the `select` takes the next answer. -/
def pubLoop (k : Commands) (g : gateway) (p : Packet) (sequenceTxFlag : Bool) :
    Nat → List AckWait → PubEnd
  | retries, [] =>
    match g.txBuff with
    | none => .ended (.stop (.blocked g []))
    | some ch => .ended (.waiting sequenceTxFlag retries g [.send ch p])
  | retries, .ack a :: rest =>
    match g.txBuff with
    | none => .ended (.stop (.blocked g []))
    | some ch =>
      if a = sequenceTxFlag then .acked rest [.send ch p]
      else (pubLoop k g p sequenceTxFlag retries rest).after [.send ch p]
  | retries, .closed :: rest =>
    match g.txBuff with
    | none => .ended (.stop (.blocked g []))
    | some ch => (pubLoop k g p sequenceTxFlag retries rest).after [.send ch p]
  | retries, .timeout :: rest =>
    match g.txBuff with
    | none => .ended (.stop (.blocked g []))
    | some ch =>
      if retries + 1 ≥ 5 then
        let r := dropLink g
        .ended (.stop (.done r.1 ([.send ch p, .send ch { command := k.disconnect }] ++ r.2)))
      else (pubLoop k g p sequenceTxFlag (retries + 1) rest).after [.send ch p]

/-- The outer loop of `packetSender`, lines 189 to 223: `reads` are the
results of `g.uStream.Read` (`none` for an error, else the chunk `tx[:nRx]`),
`waits` the answers to the selects of `PUB_LOOP`. -/
def senderLoop (k : Commands) (g : gateway) :
    Bool → Nat → List (Option (List Nat)) → List AckWait → SenderEnd
  | sequenceTxFlag, retries, [], _ => .waiting sequenceTxFlag retries g []
  | _, _, none :: _, _ =>
    if g.state = .Connected then
      match g.txBuff with
      | none => .stop (.blocked g [])
      | some ch =>
        let r := dropLink g
        .stop (.done r.1 (.send ch { command := k.disconnect } :: r.2))
    else .stop (.done g [])
  | sequenceTxFlag, retries, some chunk :: reads, waits =>
    let p : Packet :=
      { command := if sequenceTxFlag then k.publish ||| 0x80 else k.publish,
        payload := chunk }
    match pubLoop k g p sequenceTxFlag retries waits with
    | .acked rest evs => (senderLoop k g (!sequenceTxFlag) 0 reads rest).after evs
    | .ended e => e

/-- The method `packetSender`: sequence flag false and retry counter 0 at the
start. -/
def packetSender (k : Commands) (g : gateway) (reads : List (Option (List Nat)))
    (waits : List AckWait) : SenderEnd :=
  senderLoop k g false 0 reads waits

/-! ## Reference notions and sample values -/

/-- The decimal numeral of `n`, most significant digit first, as the
specification words it: the digits of `n` in base ten, and the single digit
`0` for zero.  It is stated with the digit expansion `Nat.digits`, not taken
from the code, and is compared with `itoa` below. -/
def decimal (n : Nat) : List Char :=
  if n = 0 then ['0'] else (Nat.digits 10 n).reverse.map Nat.digitChar

/-- Sample command codes for the worked examples; the model itself does not
fix them. -/
def sampleCommands : Commands :=
  { connect := 0, connack := 1, disconnect := 2, publish := 3, acknowledge := 4 }

/-- Sample upstream for the worked examples: every dial yields connection 7,
every write succeeds and the publisher takes every ack. -/
def sampleUpstream : Upstream :=
  { dial := fun _ => some 7, write := fun _ _ => true, ackTaken := true }

/-- Sample upstream for the worked examples: no dial and no write succeeds,
and no publisher takes an ack. -/
def sampleUnreachable : Upstream :=
  { dial := fun _ => none, write := fun _ _ => false, ackTaken := false }

/-- Sample gateway state for the worked examples: a session on queue 0 and
connection 7. -/
def sampleConnected : gateway :=
  { state := .Connected, expectedRxSeqFlag := false, txBuff := some 0,
    uStream := some 7, chans := 1, rxClosed := false }

/-- Sample checksum for the worked examples, a plain byte sum standing in for
`calcCrc`. -/
def sampleCrc (p : Packet) : Nat := p.length + p.command + p.payload.sum

/-- Sample PUBLISH packet for the worked examples, sequence flag clear. -/
def samplePublish : Packet := { command := 3, payload := [1, 2] }

/-- Sample CONNECT packet for the worked examples, to `127.0.0.1:8080`. -/
def sampleConnect : Packet := { command := 0, payload := [127, 0, 0, 1, 0x90, 0x1f] }

/-! ## Further notions for the lifecycle, framing and publisher properties -/

/-- The queues closed, in order. -/
def closedChans : List Event → List Nat
  | [] => []
  | .closeChan ch :: evs => ch :: closedChans evs
  | _ :: evs => closedChans evs

/-- The connections closed, in order. -/
def closedConns : List Event → List Nat
  | [] => []
  | .closeConn c :: evs => c :: closedConns evs
  | _ :: evs => closedConns evs

/-- The four little-endian bytes of a 32-bit value, as the specification puts
the checksum on the wire. -/
def le32 (v : Nat) : List Nat :=
  [v % 256, v / 256 % 256, v / 65536 % 256, v / 16777216 % 256]

/-- A sequence of packets dispatched one after the other, as the framer does
with the packets it has validated; a call that does not return ends the
sequence. -/
def handleAll (k : Commands) (env : Upstream) : gateway → List Packet → Outcome
  | g, [] => .done g []
  | g, p :: ps =>
    match handleRxPacket k env g p with
    | .done g1 evs => (handleAll k env g1 ps).after evs
    | o => o

/-- Sample DISCONNECT packet for the worked examples. -/
def sampleDisconnect : Packet := { command := 2 }

/-- Sample gateway state for the worked examples: the gateway after
`dropGateway` in the sample session. -/
def sampleShutDown : gateway := (dropGateway sampleConnected).gw

/-- The queue handles that occur in events: made, sent on, or closed. -/
def chansOf : List Event → List Nat
  | [] => []
  | .makeChan ch :: evs => ch :: chansOf evs
  | .send ch _ :: evs => ch :: chansOf evs
  | .closeChan ch :: evs => ch :: chansOf evs
  | _ :: evs => chansOf evs

/-- The queues made, in order. -/
def madeChans : List Event → List Nat
  | [] => []
  | .makeChan ch :: evs => ch :: madeChans evs
  | _ :: evs => madeChans evs

/-- The teardown sequence of the framer (lines 40 and 41) and of the publisher
(lines 194 and 195, 217 and 218): a DISCONNECT is put on `g.txBuff`, then
`dropLink` runs. -/
def teardown (k : Commands) (g : gateway) : Outcome :=
  match g.txBuff with
  | none => .blocked g []
  | some ch =>
    let r := dropLink g
    .done r.1 (.send ch { command := k.disconnect } :: r.2)

/-- The gateway states reached from the state `Listen` sets up, each with the
events so far, by steps taken one after the other: a packet handled by
`handleRxPacket` (under any upstream behaviour, however the call ends),
`dropLink`, `dropGateway` (whether it returns or panics), the teardown
sequence of framer and publisher, and a packet put on the outbound queue by
the publisher. -/
inductive Reachable (k : Commands) : gateway → List Event → Prop
  | start : Reachable k Listen []
  | handled (env : Upstream) (p : Packet) {g : gateway} {evs : List Event} :
      Reachable k g evs →
      Reachable k (handleRxPacket k env g p).gw (evs ++ (handleRxPacket k env g p).events)
  | linkDropped {g : gateway} {evs : List Event} :
      Reachable k g evs → Reachable k (dropLink g).1 (evs ++ (dropLink g).2)
  | gatewayDropped {g : gateway} {evs : List Event} :
      Reachable k g evs → Reachable k (dropGateway g).gw (evs ++ (dropGateway g).events)
  | tornDown {g : gateway} {evs : List Event} :
      Reachable k g evs → Reachable k (teardown k g).gw (evs ++ (teardown k g).events)
  | published (p : Packet) {g : gateway} {evs : List Event} {ch : Nat} :
      g.txBuff = some ch → Reachable k g evs → Reachable k g (evs ++ [.send ch p])

/-- What holds of a gateway state and the events that led to it.  A Connected
state has a queue and a connection; any other state has no queue; the queue
of the state has been made, is numbered below the next handle and has not
been closed; every queue handle in the events is below the next handle; and in
a Disconnected state a connection still held by `uStream` has been closed. -/
structure Sound (g : gateway) (evs : List Event) : Prop where
  wired : g.state = .Connected → ∃ ch c, g.txBuff = some ch ∧ g.uStream = some c
  idle : g.state ≠ .Connected → g.txBuff = none
  queueOpen : ∀ ch, g.txBuff = some ch →
    ch < g.chans ∧ ch ∈ madeChans evs ∧ ch ∉ closedChans evs
  handles : ∀ ch, ch ∈ chansOf evs → ch < g.chans
  connClosed : g.state = .Disconnected → ∀ c, g.uStream = some c → c ∈ closedConns evs

/-- Sample run for the worked examples: the sample CONNECT handled in the
initial state, the dial answered with connection 7. -/
def sampleAfterConnect : Outcome :=
  handleRxPacket sampleCommands sampleUpstream Listen sampleConnect

/-- Sample run for the worked examples, continued: the sample DISCONNECT
handled in the session that the sample CONNECT opened. -/
def sampleAfterDisconnect : Outcome :=
  handleRxPacket sampleCommands sampleUpstream sampleAfterConnect.gw sampleDisconnect

/-- The gateway state at the end of a publisher run. -/
def SenderEnd.gw : SenderEnd → gateway
  | .stop o => o.gw
  | .waiting _ _ g _ => g

/-- The events of a `PUB_LOOP` result. -/
def PubEnd.events : PubEnd → List Event
  | .acked _ evs => evs
  | .ended e => e.events

/-- The packet the publisher builds for a chunk at lines 199 to 202: command
`publish`, with bit 7 set when the sequence flag is set, and the chunk as
payload. -/
def publishPacket (k : Commands) (sequenceTxFlag : Bool) (chunk : List Nat) : Packet :=
  { command := if sequenceTxFlag then k.publish ||| 0x80 else k.publish, payload := chunk }

/-- A session in which every chunk is acknowledged in the end is given as a
list of rounds, one per chunk read from upstream: the chunk, and the answers
the ack-waits for it receive before the matching ACKNOWLEDGE arrives.  This
is the stream of all answers when the first round has number `i`; the chunk
of round number `j` is acknowledged with the flag set exactly when `j` is
odd. -/
def roundWaits : Nat → List (List Nat × List AckWait) → List AckWait
  | _, [] => []
  | i, (_, pre) :: rounds => pre ++ .ack (decide (i % 2 = 1)) :: roundWaits (i + 1) rounds

/-- The answers before the matching ACKNOWLEDGE of each round hold no
ACKNOWLEDGE with the flag of that round and fewer than 5 timeouts. -/
def roundsOpen : Nat → List (List Nat × List AckWait) → Prop
  | _, [] => True
  | i, (_, pre) :: rounds =>
    (.ack (decide (i % 2 = 1)) ∉ pre ∧ pre.count .timeout < 5) ∧ roundsOpen (i + 1) rounds

/-- The sends expected of the publisher on the queue `ch` for the rounds from
number `i` on: the PUBLISH of round `j` carries the chunk of that round and
has bit 7 set exactly when `j` is odd; it is sent once, and once more for
every answer before the matching ACKNOWLEDGE. -/
def roundSends (k : Commands) (ch : Nat) : Nat → List (List Nat × List AckWait) → List Event
  | _, [] => []
  | i, (chunk, pre) :: rounds =>
    List.replicate (pre.length + 1) (.send ch (publishPacket k (decide (i % 2 = 1)) chunk)) ++
      roundSends k ch (i + 1) rounds

/-- The gateway state after a framing pass. -/
def Pass.gw : Pass → gateway
  | .next _ g _ _ => g
  | .stop o => o.gw

/-- The events of a framing pass. -/
def Pass.events : Pass → List Event
  | .next _ _ _ evs => evs
  | .stop o => o.events

/-- No packet of the events is sent on a queue closed before the send, either
earlier in the events or among the queues `closed` beforehand. -/
def sendsOpen : List Nat → List Event → Bool
  | _, [] => true
  | closed, .send ch _ :: evs => decide (ch ∉ closed) && sendsOpen closed evs
  | closed, .closeChan ch :: evs => sendsOpen (ch :: closed) evs
  | closed, _ :: evs => sendsOpen closed evs

/-! ## Session dispatcher: properties -/

/-- The state `Listen` starts from is wired. -/
theorem Listen_wired : Listen.Wired := by
  intro h; simp [Listen] at h

/-- The state left by `dropLink` is wired. -/
theorem dropLink_wired (g : gateway) : (dropLink g).1.Wired := by
  intro h; simp [dropLink] at h

/-- However a call of `handleRxPacket` ends, it leaves a wired state wired:
Connected is only ever set together with a queue and a connection, and the
queue is only ever dropped together with the Connected state. -/
theorem handleRxPacket_wired (k : Commands) (env : Upstream) (g : gateway) (p : Packet)
    (hg : g.Wired) : (handleRxPacket k env g p).gw.Wired := by
  unfold handleRxPacket
  simp only []
  repeat' split
  all_goals
    first
    | exact hg
    | exact dropLink_wired _
    | (intro h; simp_all [Outcome.gw, gateway.Wired, dropLink])

/-- Packets with the same bit 7 have the same sequence flag. -/
theorem seqFlag_congr (p q : Packet) (h : p.command &&& 0x80 = q.command &&& 0x80) :
    seqFlag p = seqFlag q := by
  simp [seqFlag, h]

/-- A PUBLISH whose flag is not the expected one is acknowledged and nothing
else happens. -/
theorem handleRxPacket_publish_mismatch
    (k : Commands) (env : Upstream) (g : gateway) (ch : Nat) (p : Packet)
    (hs : g.state = .Connected) (htx : g.txBuff = some ch)
    (hp : p.command &&& 0x7F = k.publish) (hm : seqFlag p ≠ g.expectedRxSeqFlag) :
    handleRxPacket k env g p =
      .done g [.send ch { command := k.acknowledge ||| (p.command &&& 0x80) }] := by
  simp [handleRxPacket, hs, htx, hp, hm]

/-- A PUBLISH with the expected flag whose upstream write succeeds. -/
theorem handleRxPacket_publish_match
    (k : Commands) (env : Upstream) (g : gateway) (ch c : Nat) (p : Packet)
    (hs : g.state = .Connected) (htx : g.txBuff = some ch) (hu : g.uStream = some c)
    (hp : p.command &&& 0x7F = k.publish) (hm : seqFlag p = g.expectedRxSeqFlag)
    (hw : env.write c p.payload = true) :
    handleRxPacket k env g p =
      .done { g with expectedRxSeqFlag := !g.expectedRxSeqFlag }
        [.send ch { command := k.acknowledge ||| (p.command &&& 0x80) },
          .write c p.payload] := by
  simp [handleRxPacket, hs, htx, hu, hp, hm, hw]

/-- A PUBLISH with the expected flag whose upstream write fails. -/
theorem handleRxPacket_publish_write_error
    (k : Commands) (env : Upstream) (g : gateway) (ch c : Nat) (p : Packet)
    (hs : g.state = .Connected) (htx : g.txBuff = some ch) (hu : g.uStream = some c)
    (hp : p.command &&& 0x7F = k.publish) (hm : seqFlag p = g.expectedRxSeqFlag)
    (hw : env.write c p.payload = false) :
    handleRxPacket k env g p =
      .done { g with expectedRxSeqFlag := !g.expectedRxSeqFlag, txBuff := none,
                     state := .Disconnected }
        [.send ch { command := k.acknowledge ||| (p.command &&& 0x80) },
          .write c p.payload, .send ch { command := k.disconnect },
          .closeConn c, .closeChan ch] := by
  simp [handleRxPacket, dropLink, hs, htx, hu, hp, hm, hw]

/-- C1: in a Connected gateway with an outbound queue and an upstream
connection that takes the first payload without error, two PUBLISH packets with
the same sequence flag handled one after the other each put exactly one packet
on the outbound queue, the ACKNOWLEDGE echoing their flag; over the two calls
at most one payload is written upstream, and when the flag equals
`expectedRxSeqFlag` before the first call it is exactly the first packet's
payload, once.  The upstream may answer the second call differently from the
first (`env2`). -/
theorem C1_duplicate_publish_acked_twice_forwarded_once
    (k : Commands) (env env2 : Upstream) (g : gateway) (ch c : Nat) (p1 p2 : Packet)
    (hs : g.state = .Connected) (htx : g.txBuff = some ch) (hu : g.uStream = some c)
    (hw : env.write c p1.payload = true)
    (hp1 : p1.command &&& 0x7F = k.publish) (hp2 : p2.command &&& 0x7F = k.publish)
    (hflag : p1.command &&& 0x80 = p2.command &&& 0x80) :
    ∃ g1 e1 g2 e2,
      handleRxPacket k env g p1 = .done g1 e1 ∧
      handleRxPacket k env2 g1 p2 = .done g2 e2 ∧
      sent e1 = [(ch, { command := k.acknowledge ||| (p1.command &&& 0x80) })] ∧
      sent e2 = [(ch, { command := k.acknowledge ||| (p2.command &&& 0x80) })] ∧
      (written (e1 ++ e2)).length ≤ 1 ∧
      (seqFlag p1 = g.expectedRxSeqFlag → written (e1 ++ e2) = [(c, p1.payload)]) := by
  have hf : seqFlag p2 = seqFlag p1 := (seqFlag_congr p1 p2 hflag).symm
  by_cases hm : seqFlag p1 = g.expectedRxSeqFlag
  · have hm2 : seqFlag p2 ≠ !g.expectedRxSeqFlag := by
      rw [hf, hm]; cases g.expectedRxSeqFlag <;> simp
    exact ⟨_, _, _, _,
      handleRxPacket_publish_match k env g ch c p1 hs htx hu hp1 hm hw,
      handleRxPacket_publish_mismatch k env2 _ ch p2 hs htx hp2 hm2,
      by simp [sent], by simp [sent], by simp [written], by simp [written]⟩
  · have hm2 : seqFlag p2 ≠ g.expectedRxSeqFlag := by rw [hf]; exact hm
    exact ⟨_, _, _, _,
      handleRxPacket_publish_mismatch k env g ch p1 hs htx hp1 hm,
      handleRxPacket_publish_mismatch k env2 g ch p2 hs htx hp2 hm2,
      by simp [sent], by simp [sent], by simp [written], by simp [written, hm]⟩

/-- C2: for a PUBLISH packet handled while Connected (with an outbound queue),
the first thing `handleRxPacket` does is to enqueue an ACKNOWLEDGE whose
command byte is `acknowledge | (command & 0x80)` and whose payload is empty,
whatever `expectedRxSeqFlag` is. -/
theorem C2_publish_ack_enqueued_first
    (k : Commands) (env : Upstream) (g : gateway) (ch : Nat) (p : Packet)
    (hs : g.state = .Connected) (htx : g.txBuff = some ch)
    (hp : p.command &&& 0x7F = k.publish) :
    ∃ rest, (handleRxPacket k env g p).events =
        .send ch { length := 0, command := k.acknowledge ||| (p.command &&& 0x80),
                   payload := [], crc := 0 } :: rest ∧
      (sent (handleRxPacket k env g p).events).head? =
        some (ch, { length := 0, command := k.acknowledge ||| (p.command &&& 0x80),
                    payload := [], crc := 0 }) := by
  unfold handleRxPacket
  simp only [hp, hs, htx, if_true]
  split
  · split
    · exact ⟨_, rfl, rfl⟩
    · split
      · exact ⟨_, rfl, rfl⟩
      · exact ⟨_, rfl, rfl⟩
  · exact ⟨_, rfl, rfl⟩

/-- C3: for a PUBLISH packet handled while Connected (with an outbound queue
and an upstream connection), the payload is written upstream, exactly once,
if and only if the sequence flag of the packet equals `expectedRxSeqFlag`; on
a match `expectedRxSeqFlag` is negated; without a match `expectedRxSeqFlag`
and the connection state are unchanged and nothing is written upstream. -/
theorem C3_publish_forwarded_iff_flag_matches
    (k : Commands) (env : Upstream) (g : gateway) (ch c : Nat) (p : Packet)
    (hs : g.state = .Connected) (htx : g.txBuff = some ch) (hu : g.uStream = some c)
    (hp : p.command &&& 0x7F = k.publish) :
    ∃ g1 evs,
      handleRxPacket k env g p = .done g1 evs ∧
      (written evs = [(c, p.payload)] ↔ seqFlag p = g.expectedRxSeqFlag) ∧
      (seqFlag p = g.expectedRxSeqFlag →
        g1.expectedRxSeqFlag = !g.expectedRxSeqFlag) ∧
      (seqFlag p ≠ g.expectedRxSeqFlag →
        g1.expectedRxSeqFlag = g.expectedRxSeqFlag ∧ g1.state = g.state ∧
        written evs = []) := by
  by_cases hm : seqFlag p = g.expectedRxSeqFlag
  · cases hw : env.write c p.payload
    · exact ⟨_, _, handleRxPacket_publish_write_error k env g ch c p hs htx hu hp hm hw,
        by simp [written, hm], by simp, by simp [hm]⟩
    · exact ⟨_, _, handleRxPacket_publish_match k env g ch c p hs htx hu hp hm hw,
        by simp [written, hm], by simp, by simp [hm]⟩
  · exact ⟨_, _, handleRxPacket_publish_mismatch k env g ch p hs htx hp hm,
      by simp [written, hm], by simp [hm], by simp [written]⟩

/-- A CONNECT with a 6-byte payload, received while Disconnected, whose dial
succeeds. -/
theorem handleRxPacket_connect_dialled
    (k : Commands) (env : Upstream) (g : gateway) (c : Nat) (p : Packet)
    (hk : k.Distinct) (hs : g.state = .Disconnected)
    (hp : p.command &&& 0x7F = k.connect) (hlen : p.payload.length = 6)
    (hd : env.dial (dstStr p.payload) = some c) :
    handleRxPacket k env g p =
      .done { state := .Connected, expectedRxSeqFlag := false, txBuff := some g.chans,
              uStream := some c, chans := g.chans + 1, rxClosed := g.rxClosed }
        [.makeChan g.chans, .goTxSerial, .dial (dstStr p.payload), .goPacketSender,
          .send g.chans { command := k.connack }] := by
  obtain ⟨-, h2, -, h4, -, -, -, -, -, -⟩ := hk
  simp [handleRxPacket, hs, hp, hlen, hd, Ne.symm h2, Ne.symm h4]

/-- A CONNECT with a 6-byte payload, received while Disconnected, whose dial
fails. -/
theorem handleRxPacket_connect_dial_error
    (k : Commands) (env : Upstream) (g : gateway) (p : Packet)
    (hk : k.Distinct) (hs : g.state = .Disconnected)
    (hp : p.command &&& 0x7F = k.connect) (hlen : p.payload.length = 6)
    (hd : env.dial (dstStr p.payload) = none) :
    handleRxPacket k env g p =
      .done { state := .Disconnected, expectedRxSeqFlag := false, txBuff := none,
              uStream := none, chans := g.chans + 1, rxClosed := g.rxClosed }
        [.makeChan g.chans, .goTxSerial, .dial (dstStr p.payload),
          .send g.chans { command := k.disconnect }, .closeChan g.chans] := by
  obtain ⟨-, h2, -, h4, -, -, -, -, -, -⟩ := hk
  simp [handleRxPacket, dropLink, hs, hp, hlen, hd, Ne.symm h2, Ne.symm h4]

/-- C6: a CONNECT packet whose payload is not exactly 6 bytes long, handled
while Disconnected, produces no event at all (no packet enqueued, no dial, no
queue made) and leaves the gateway state as it was. -/
theorem C6_connect_bad_payload_dropped
    (k : Commands) (env : Upstream) (g : gateway) (p : Packet)
    (hs : g.state = .Disconnected)
    (hp : p.command &&& 0x7F = k.connect) (hlen : p.payload.length ≠ 6) :
    handleRxPacket k env g p = .done g [] := by
  unfold handleRxPacket
  simp only [hs, hp]
  split_ifs <;> first | rfl | simp_all

/-- C7: a CONNECT packet with a 6-byte payload, handled while Disconnected,
whose dial succeeds: the state becomes Connected, the upstream connection is
the dialled one, the outbound queue is the one made in this call, and the
packets `handleRxPacket` sends are exactly one CONNACK with empty payload, on
that queue. -/
theorem C7_connect_dial_success
    (k : Commands) (env : Upstream) (g : gateway) (c : Nat) (p : Packet)
    (hk : k.Distinct) (hs : g.state = .Disconnected)
    (hp : p.command &&& 0x7F = k.connect) (hlen : p.payload.length = 6)
    (hd : env.dial (dstStr p.payload) = some c) :
    ∃ g1 evs,
      handleRxPacket k env g p = .done g1 evs ∧
      g1.state = .Connected ∧ g1.uStream = some c ∧ g1.txBuff = some g.chans ∧
      .makeChan g.chans ∈ evs ∧
      sent evs = [(g.chans, { length := 0, command := k.connack, payload := [], crc := 0 })] :=
  ⟨_, _, handleRxPacket_connect_dialled k env g c p hk hs hp hlen hd,
    rfl, rfl, rfl, by simp, by simp [sent]⟩

/-- C8: a CONNECT packet with a 6-byte payload, handled while Disconnected,
whose dial fails: exactly one packet is sent, a DISCONNECT (so no CONNACK),
the queue made in this call is closed by `dropLink` and its handle is nil
afterwards, and the state after the call is Disconnected. -/
theorem C8_connect_dial_failure
    (k : Commands) (env : Upstream) (g : gateway) (p : Packet)
    (hk : k.Distinct) (hs : g.state = .Disconnected)
    (hp : p.command &&& 0x7F = k.connect) (hlen : p.payload.length = 6)
    (hd : env.dial (dstStr p.payload) = none) :
    ∃ g1 evs,
      handleRxPacket k env g p = .done g1 evs ∧
      sent evs = [(g.chans, { length := 0, command := k.disconnect, payload := [], crc := 0 })] ∧
      (∀ q ∈ sent evs, q.2.command ≠ k.connack) ∧
      .closeChan g.chans ∈ evs ∧
      g1.txBuff = none ∧ g1.state = .Disconnected :=
  ⟨_, _, handleRxPacket_connect_dial_error k env g p hk hs hp hlen hd,
    by simp [sent], by simp [sent, Ne.symm hk.2.2.2.2.2.2.2.2.2], by simp, rfl, rfl⟩

/-- C10: a packet whose command is not valid in the current state is a no-op:
PUBLISH, ACKNOWLEDGE or DISCONNECT (with either sequence bit) while
Disconnected, and CONNECT while Connected, produce no event (no packet
enqueued, no upstream write, no ack delivered) and leave the gateway state as
it was. -/
theorem C10_invalid_command_is_noop
    (k : Commands) (env : Upstream) (g : gateway) (p : Packet) (hk : k.Distinct)
    (h : (g.state = .Disconnected ∧
            (p.command &&& 0x7F = k.publish ∨ p.command &&& 0x7F = k.acknowledge ∨
              p.command &&& 0x7F = k.disconnect)) ∨
         (g.state = .Connected ∧ p.command &&& 0x7F = k.connect)) :
    handleRxPacket k env g p = .done g [] := by
  obtain ⟨h1, h2, h3, h4, h5, h6, -, -, -, -⟩ := hk
  rcases h with ⟨hs, hp | hp | hp⟩ | ⟨hs, hp⟩
  · simp [handleRxPacket, hs, hp]
  · simp [handleRxPacket, hs, hp]
  · simp [handleRxPacket, hs, hp, Ne.symm h3, Ne.symm h5, Ne.symm h6]
  · simp [handleRxPacket, hs, hp, Ne.symm h2, Ne.symm h4]

/-! ## Destination address -/

/-- The digit loop of `Nat.toDigits` yields the base-ten digits, most
significant first. -/
theorem toDigitsCore_eq_digits (fuel : Nat) :
    ∀ (n : Nat) (ds : List Char), 0 < n → n < fuel →
      Nat.toDigitsCore 10 fuel n ds =
        (Nat.digits 10 n).reverse.map Nat.digitChar ++ ds := by
  induction fuel with
  | zero => intro n ds _ h; omega
  | succ f ih =>
    intro n ds hn hf
    rw [Nat.digits_def' (by norm_num) hn]
    simp only [Nat.toDigitsCore]
    by_cases h0 : n / 10 = 0
    · simp [h0]
    · rw [if_neg h0, ih (n / 10) _ (Nat.pos_of_ne_zero h0) (by omega)]
      simp

/-- The string `itoa n` is the decimal numeral of `n`. -/
theorem itoa_eq_decimal (n : Nat) : itoa n = String.mk (decimal n) := by
  unfold itoa decimal Nat.toDigits
  by_cases h : n = 0
  · subst h; rfl
  · rw [if_neg h, toDigitsCore_eq_digits (n + 1) n [] (Nat.pos_of_ne_zero h) (by omega)]
    simp

/-- Only the digit zero is rendered as the character `0`. -/
theorem digitChar_eq_zero (d : Nat) (h : d < 10) (h0 : Nat.digitChar d = '0') : d = 0 := by
  interval_cases d <;> first | rfl | (revert h0; decide)

/-- The decimal numeral of a positive number does not start with `0`. -/
theorem decimal_head_ne_zero (n : Nat) (h : n ≠ 0) : (decimal n).head? ≠ some '0' := by
  unfold decimal
  rw [if_neg h]
  have hne : Nat.digits 10 n ≠ [] := Nat.digits_ne_nil_iff_ne_zero.mpr h
  have hl := Nat.getLast_digit_ne_zero 10 h
  have hlt := Nat.digits_lt_base (b := 10) (m := n) (by norm_num) (List.getLast_mem hne)
  rw [List.head?_map, List.head?_reverse, List.getLast?_eq_getLast _ hne]
  simp only [Option.map_some', ne_eq, Option.some.injEq]
  intro hc
  exact hl (digitChar_eq_zero _ hlt hc)

/-- The destination string of a 6-byte payload. -/
theorem dstStr_six (a b c d lo hi : Nat) :
    dstStr [a, b, c, d, lo, hi] =
      String.mk (decimal a ++ '.' :: (decimal b ++ '.' :: (decimal c ++ '.' ::
        (decimal d ++ ':' :: decimal (lo + 256 * hi))))) := by
  apply String.ext
  simp [dstStr, uint16LE, List.range, List.range.loop, itoa_eq_decimal]

/-- C9: for a CONNECT with the 6-byte payload `[a, b, c, d, lo, hi]` accepted
while Disconnected, exactly one dial is made and its address is the decimal
numeral of `a`, a dot, that of `b`, a dot, that of `c`, a dot, that of `d`, a
colon, and the decimal numeral of the port `lo + 256 * hi`; these numerals
have no leading zero, and the port of two bytes is below 65536. -/
theorem C9_dial_address_is_dotted_decimal
    (k : Commands) (env : Upstream) (g : gateway) (p : Packet) (a b c d lo hi : Nat)
    (hk : k.Distinct) (hs : g.state = .Disconnected)
    (hp : p.command &&& 0x7F = k.connect) (hpl : p.payload = [a, b, c, d, lo, hi]) :
    dialled (handleRxPacket k env g p).events =
      [String.mk (decimal a ++ '.' :: (decimal b ++ '.' :: (decimal c ++ '.' ::
        (decimal d ++ ':' :: decimal (lo + 256 * hi)))))] ∧
    (∀ n ∈ [a, b, c, d, lo + 256 * hi], n ≠ 0 → (decimal n).head? ≠ some '0') ∧
    (lo < 256 → hi < 256 → lo + 256 * hi < 65536) := by
  have hlen : p.payload.length = 6 := by rw [hpl]; rfl
  refine ⟨?_, fun n _ hn => decimal_head_ne_zero n hn, fun h1 h2 => by omega⟩
  rw [← dstStr_six, ← hpl]
  cases hd : env.dial (dstStr p.payload) with
  | none =>
    rw [handleRxPacket_connect_dial_error k env g p hk hs hp hlen hd]
    simp [Outcome.events, dialled]
  | some conn =>
    rw [handleRxPacket_connect_dialled k env g conn p hk hs hp hlen hd]
    simp [Outcome.events, dialled]

/-! ## Packet framer: properties -/

/-- A run of `bs.length` timed receives over the bytes `bs` collects them. -/
theorem selectBytes_bytes (bs : List Nat) :
    ∀ (acc : List Nat) (rest : List Rx),
      selectBytes bs.length acc (bs.map Rx.byte ++ rest) = .got (acc ++ bs) rest := by
  induction bs with
  | nil => intro acc rest; simp [selectBytes]
  | cons b bs ih => intro acc rest; simp [selectBytes, selectByte, ih]

/-- A frame that arrives whole is read as the packet it encodes. -/
theorem receiveFrame_whole (L c : Nat) (P cs : List Nat) (rest : List Rx)
    (hP : P.length = L - 5) (hcs : cs.length = 4) :
    receiveFrame (.byte L :: .byte c :: (P.map Rx.byte ++ (cs.map Rx.byte ++ rest))) =
      .got { length := L, command := c, payload := P, crc := uint32LE cs } rest := by
  have h1 := selectBytes_bytes P [] (cs.map Rx.byte ++ rest)
  have h2 := selectBytes_bytes cs [] rest
  rw [hP] at h1
  rw [hcs] at h2
  simp [receiveFrame, awaitByte, selectByte, h1, h2]

/-- C5: a frame received whole (length byte `L`, command byte `c`, the
`L - 5` payload bytes `P`, four checksum bytes `cs`) whose little-endian
checksum differs from `calcCrc` of the packet is dropped: whatever the
dispatcher would do with it, the pass ends with the same gateway state, no
event (nothing enqueued, written, dialled or closed), the input consumed up
to the end of the frame, and the failure counter one higher. -/
theorem C5_checksum_mismatch_only_counts
    (k : Commands) (env : Upstream) (calcCrc : Packet → Nat) (t : Nat) (g : gateway)
    (L c : Nat) (P cs : List Nat) (rest : List Rx)
    (hP : P.length = L - 5) (hcs : cs.length = 4)
    (hcrc : calcCrc { length := L, command := c, payload := P, crc := uint32LE cs }
      ≠ uint32LE cs) :
    framePass k env calcCrc t g
        (.byte L :: .byte c :: (P.map Rx.byte ++ (cs.map Rx.byte ++ rest))) =
      .next (t + 1) g rest [] ∧
    (t < 5 →
      readerPass k env calcCrc t g
          (.byte L :: .byte c :: (P.map Rx.byte ++ (cs.map Rx.byte ++ rest))) =
        .next (t + 1) g rest []) := by
  have h : framePass k env calcCrc t g
      (.byte L :: .byte c :: (P.map Rx.byte ++ (cs.map Rx.byte ++ rest))) =
      .next (t + 1) g rest [] := by
    simp [framePass, receiveFrame_whole L c P cs rest hP hcs, hcrc]
  refine ⟨h, fun ht => ?_⟩
  have ht5 : ¬ t ≥ 5 := by omega
  simp only [readerPass, if_neg ht5, h]

/-! ### The framer ends on every input -/

/-- The receive of the length byte consumes input. -/
theorem awaitByte_lt : ∀ (input : List Rx) (b : Nat) (rest : List Rx),
    awaitByte input = some (b, rest) → rest.length < input.length := by
  intro input
  induction input with
  | nil => intro b rest h; simp [awaitByte] at h
  | cons x xs ih =>
    intro b rest h
    cases x with
    | byte v =>
      simp only [awaitByte, Option.some.injEq, Prod.mk.injEq] at h
      rw [← h.2]; simp
    | timeout =>
      simp only [awaitByte] at h
      have := ih b rest h
      simp only [List.length_cons]; omega

/-- A timed receive that yields a byte consumes input. -/
theorem selectByte_got_lt (input : List Rx) (b : Nat) (rest : List Rx)
    (h : selectByte input = .got b rest) : rest.length < input.length := by
  cases input with
  | nil => simp [selectByte] at h
  | cons x xs =>
    cases x with
    | byte v =>
      simp only [selectByte, Timed.got.injEq] at h
      rw [← h.2]; simp
    | timeout => simp [selectByte] at h

/-- A timed receive that times out consumes input. -/
theorem selectByte_timedOut_lt (input : List Rx) (rest : List Rx)
    (h : selectByte input = .timedOut rest) : rest.length < input.length := by
  cases input with
  | nil => simp [selectByte] at h
  | cons x xs =>
    cases x with
    | byte v => simp [selectByte] at h
    | timeout =>
      simp only [selectByte, Timed.timedOut.injEq] at h
      rw [← h]; simp

/-- A completed run of timed receives does not add input. -/
theorem selectBytes_got_le : ∀ (n : Nat) (acc : List Nat) (input : List Rx)
    (bs : List Nat) (rest : List Rx),
    selectBytes n acc input = .got bs rest → rest.length ≤ input.length := by
  intro n
  induction n with
  | zero =>
    intro acc input bs rest h
    simp only [selectBytes, Timed.got.injEq] at h
    rw [← h.2]
  | succ n ih =>
    intro acc input bs rest h
    simp only [selectBytes] at h
    split at h
    · rename_i b r hb
      have h1 := selectByte_got_lt input b r hb
      have h2 := ih _ _ _ _ h
      omega
    · simp at h
    · simp at h

/-- A run of timed receives ended by a timeout consumes input. -/
theorem selectBytes_timedOut_lt : ∀ (n : Nat) (acc : List Nat) (input : List Rx)
    (rest : List Rx),
    selectBytes n acc input = .timedOut rest → rest.length < input.length := by
  intro n
  induction n with
  | zero =>
    intro acc input rest h
    simp [selectBytes] at h
  | succ n ih =>
    intro acc input rest h
    simp only [selectBytes] at h
    split at h
    · rename_i b r hb
      have h1 := selectByte_got_lt input b r hb
      have h2 := ih _ _ _ h
      omega
    · rename_i r hb
      simp only [Timed.timedOut.injEq] at h
      have h1 := selectByte_timedOut_lt input r hb
      rw [← h]; exact h1
    · simp at h

/-- Reading a frame consumes input, whether a packet comes out or a timeout
ends it. -/
theorem receiveFrame_lt (input : List Rx) :
    (∀ p rest, receiveFrame input = .got p rest → rest.length < input.length) ∧
    (∀ rest, receiveFrame input = .timedOut rest → rest.length < input.length) := by
  unfold receiveFrame
  split
  · simp
  · rename_i L r0 h0
    have l0 := awaitByte_lt input L r0 h0
    split
    · simp
    · rename_i r1 h1
      have l1 := selectByte_timedOut_lt r0 r1 h1
      constructor
      · intro p rest h; simp at h
      · intro rest h
        simp only [Timed.timedOut.injEq] at h
        rw [← h]; omega
    · rename_i c r1 h1
      have l1 := selectByte_got_lt r0 c r1 h1
      split
      · simp
      · rename_i r2 h2
        have l2 := selectBytes_timedOut_lt _ _ _ _ h2
        constructor
        · intro p rest h; simp at h
        · intro rest h
          simp only [Timed.timedOut.injEq] at h
          rw [← h]; omega
      · rename_i P r2 h2
        have l2 := selectBytes_got_le _ _ _ _ _ h2
        split
        · simp
        · rename_i r3 h3
          have l3 := selectBytes_timedOut_lt _ _ _ _ h3
          constructor
          · intro p rest h; simp at h
          · intro rest h
            simp only [Timed.timedOut.injEq] at h
            rw [← h]; omega
        · rename_i cs r3 h3
          have l3 := selectBytes_got_le _ _ _ _ _ h3
          constructor
          · intro p rest h
            simp only [Timed.got.injEq] at h
            rw [← h.2]; omega
          · intro rest h; simp at h

/-- A frame pass after which the loop goes on has consumed input. -/
theorem framePass_next_lt (k : Commands) (env : Upstream) (calcCrc : Packet → Nat)
    (t : Nat) (g : gateway) (input : List Rx) (t1 : Nat) (g1 : gateway) (rest : List Rx)
    (evs : List Event) (h : framePass k env calcCrc t g input = .next t1 g1 rest evs) :
    rest.length < input.length := by
  have hr := receiveFrame_lt input
  unfold framePass at h
  split at h
  · simp at h
  · rename_i r hf
    simp only [Pass.next.injEq] at h
    rw [← h.2.2.1]; exact hr.2 r hf
  · rename_i p r hf
    split at h
    · simp only [Pass.next.injEq] at h
      rw [← h.2.2.1]; exact hr.1 p r hf
    · split at h
      · simp only [Pass.next.injEq] at h
        rw [← h.2.2.1]; exact hr.1 p r hf
      · simp at h

/-- A pass of `PACKET_RX_LOOP` after which the loop goes on has consumed
input. -/
theorem readerPass_next_lt (k : Commands) (env : Upstream) (calcCrc : Packet → Nat)
    (t : Nat) (g : gateway) (input : List Rx) (t1 : Nat) (g1 : gateway) (rest : List Rx)
    (evs : List Event) (h : readerPass k env calcCrc t g input = .next t1 g1 rest evs) :
    rest.length < input.length := by
  unfold readerPass at h
  split at h
  · split at h
    · split at h <;> simp at h
    · exact framePass_next_lt k env calcCrc 0 g input t1 g1 rest evs h
  · exact framePass_next_lt k env calcCrc t g input t1 g1 rest evs h

/-- More passes than input items are enough for the loop to end. -/
theorem readerLoop_isSome (k : Commands) (env : Upstream) (calcCrc : Packet → Nat) :
    ∀ (fuel t : Nat) (g : gateway) (input : List Rx), input.length < fuel →
      (readerLoop k env calcCrc fuel t g input).isSome = true := by
  intro fuel
  induction fuel with
  | zero => intro t g input h; omega
  | succ fuel ih =>
    intro t g input h
    simp only [readerLoop]
    split
    · rfl
    · rename_i t1 g1 rest evs hp
      have hl := readerPass_next_lt k env calcCrc t g input t1 g1 rest evs hp
      rw [Option.isSome_map']
      exact ih t1 g1 rest (by omega)

/-- The method `packetReader` ends on every finite input stream: the passes
allotted to it are never used up. -/
theorem packetReader_isSome (k : Commands) (env : Upstream) (calcCrc : Packet → Nat)
    (g : gateway) (input : List Rx) :
    (packetReader k env calcCrc g input).isSome = true :=
  readerLoop_isSome k env calcCrc (input.length + 1) 0 g input (by omega)

/-! ## Downstream publisher: properties -/

/-- With the retry counter at 0 and five ack-waits in a row ending in the
timer, `PUB_LOOP` sends the packet five times, then a DISCONNECT, runs
`dropLink` and ends the publisher; the fifth timeout is not followed by a
send of the packet. -/
theorem pubLoop_all_timeouts
    (k : Commands) (g : gateway) (ch : Nat) (p : Packet) (flag : Bool)
    (rest : List AckWait) (htx : g.txBuff = some ch) :
    pubLoop k g p flag 0 (List.replicate 5 AckWait.timeout ++ rest) =
      .ended (.stop (.done (dropLink g).1
        (List.replicate 5 (Event.send ch p) ++
          (.send ch { command := k.disconnect } :: (dropLink g).2)))) := by
  simp [pubLoop, List.replicate, htx, PubEnd.after, SenderEnd.after, Outcome.after]

/-- The publisher on a chunk read with the retry counter at 0, every ack-wait
timing out: five sends of the same PUBLISH carrying the current sequence
flag, one DISCONNECT, `dropLink`, and the publisher is over. -/
theorem senderLoop_all_timeouts
    (k : Commands) (g : gateway) (ch : Nat) (flag : Bool) (chunk : List Nat)
    (reads : List (Option (List Nat))) (rest : List AckWait) (htx : g.txBuff = some ch) :
    senderLoop k g flag 0 (some chunk :: reads)
        (List.replicate 5 AckWait.timeout ++ rest) =
      .stop (.done (dropLink g).1
        (List.replicate 5
            (Event.send ch { command := if flag then k.publish ||| 0x80 else k.publish,
                             payload := chunk }) ++
          (.send ch { command := k.disconnect } :: (dropLink g).2))) := by
  rw [senderLoop, pubLoop_all_timeouts k g ch _ flag rest htx]

/-- C4: the publisher run on one chunk with the retry counter at 0 and every
ack-wait timing out.  The PUBLISH is put on the queue five times in all, the
first transmission and four retransmissions, each with the same payload and
flag; after the fifth timeout one DISCONNECT is enqueued, `dropLink` runs and
the publisher ends.  A sixth transmission does not take place. -/
theorem C4_publish_sent_five_times_in_all :
    packetSender sampleCommands sampleConnected [some [9, 9]]
        (List.replicate 6 AckWait.timeout) =
      .stop (.done { sampleConnected with txBuff := none, state := .Disconnected }
        [.send 0 { command := 3, payload := [9, 9] },
          .send 0 { command := 3, payload := [9, 9] },
          .send 0 { command := 3, payload := [9, 9] },
          .send 0 { command := 3, payload := [9, 9] },
          .send 0 { command := 3, payload := [9, 9] },
          .send 0 { command := 2 }, .closeConn 7, .closeChan 0]) ∧
    ((sent (packetSender sampleCommands sampleConnected [some [9, 9]]
        (List.replicate 6 AckWait.timeout)).events).filter
      (fun q => q.2.command = 3)).length = 5 := by
  constructor <;> decide

/-! ## Worked examples -/

/-- C1 at a concrete input: the sample PUBLISH handled twice in the sample
session, the upstream failing by the time of the second call. -/
theorem C1_duplicate_publish_witness :
    (sampleConnected.state = .Connected ∧ sampleConnected.txBuff = some 0 ∧
      sampleConnected.uStream = some 7 ∧
      sampleUpstream.write 7 samplePublish.payload = true ∧
      samplePublish.command &&& 0x7F = sampleCommands.publish) ∧
    ∃ g1 e1 g2 e2,
      handleRxPacket sampleCommands sampleUpstream sampleConnected samplePublish =
        .done g1 e1 ∧
      handleRxPacket sampleCommands sampleUnreachable g1 samplePublish = .done g2 e2 ∧
      sent e1 = [(0, { command := sampleCommands.acknowledge |||
        (samplePublish.command &&& 0x80) })] ∧
      sent e2 = [(0, { command := sampleCommands.acknowledge |||
        (samplePublish.command &&& 0x80) })] ∧
      (written (e1 ++ e2)).length ≤ 1 ∧
      (seqFlag samplePublish = sampleConnected.expectedRxSeqFlag →
        written (e1 ++ e2) = [(7, samplePublish.payload)]) :=
  ⟨⟨rfl, rfl, rfl, rfl, by decide⟩,
    C1_duplicate_publish_acked_twice_forwarded_once sampleCommands sampleUpstream
      sampleUnreachable sampleConnected 0 7 samplePublish samplePublish rfl rfl rfl rfl
      (by decide) (by decide) rfl⟩

/-- C2 at a concrete input: the sample PUBLISH in the sample session, with an
upstream whose writes fail. -/
theorem C2_publish_ack_witness :
    (sampleConnected.state = .Connected ∧ sampleConnected.txBuff = some 0 ∧
      samplePublish.command &&& 0x7F = sampleCommands.publish) ∧
    ∃ rest,
      (handleRxPacket sampleCommands sampleUnreachable sampleConnected samplePublish).events =
        .send 0 { length := 0, command := sampleCommands.acknowledge |||
          (samplePublish.command &&& 0x80), payload := [], crc := 0 } :: rest ∧
      (sent (handleRxPacket sampleCommands sampleUnreachable sampleConnected
          samplePublish).events).head? =
        some (0, { length := 0, command := sampleCommands.acknowledge |||
          (samplePublish.command &&& 0x80), payload := [], crc := 0 }) :=
  ⟨⟨rfl, rfl, by decide⟩,
    C2_publish_ack_enqueued_first sampleCommands sampleUnreachable sampleConnected 0
      samplePublish rfl rfl (by decide)⟩

/-- C3 at a concrete input: the sample PUBLISH in the sample session. -/
theorem C3_publish_forwarded_witness :
    (sampleConnected.state = .Connected ∧ sampleConnected.txBuff = some 0 ∧
      sampleConnected.uStream = some 7 ∧
      samplePublish.command &&& 0x7F = sampleCommands.publish) ∧
    ∃ g1 evs,
      handleRxPacket sampleCommands sampleUpstream sampleConnected samplePublish =
        .done g1 evs ∧
      (written evs = [(7, samplePublish.payload)] ↔
        seqFlag samplePublish = sampleConnected.expectedRxSeqFlag) ∧
      (seqFlag samplePublish = sampleConnected.expectedRxSeqFlag →
        g1.expectedRxSeqFlag = !sampleConnected.expectedRxSeqFlag) ∧
      (seqFlag samplePublish ≠ sampleConnected.expectedRxSeqFlag →
        g1.expectedRxSeqFlag = sampleConnected.expectedRxSeqFlag ∧
        g1.state = sampleConnected.state ∧ written evs = []) :=
  ⟨⟨rfl, rfl, rfl, by decide⟩,
    C3_publish_forwarded_iff_flag_matches sampleCommands sampleUpstream sampleConnected
      0 7 samplePublish rfl rfl rfl (by decide)⟩

/-- C5 at a concrete input: a frame of length 7 with payload `[1, 2]` whose
checksum bytes are all zero, while the sample checksum of the packet is 13. -/
theorem C5_checksum_mismatch_witness :
    ([1, 2].length = 7 - 5 ∧ [0, 0, 0, 0].length = 4 ∧
      sampleCrc { length := 7, command := 3, payload := [1, 2],
                  crc := uint32LE [0, 0, 0, 0] } ≠ uint32LE [0, 0, 0, 0]) ∧
    (framePass sampleCommands sampleUpstream sampleCrc 2 sampleConnected
        (.byte 7 :: .byte 3 :: ([1, 2].map Rx.byte ++
          ([0, 0, 0, 0].map Rx.byte ++ [.byte 5]))) =
      .next (2 + 1) sampleConnected [.byte 5] [] ∧
    (2 < 5 →
      readerPass sampleCommands sampleUpstream sampleCrc 2 sampleConnected
          (.byte 7 :: .byte 3 :: ([1, 2].map Rx.byte ++
            ([0, 0, 0, 0].map Rx.byte ++ [.byte 5]))) =
        .next (2 + 1) sampleConnected [.byte 5] [])) :=
  ⟨⟨rfl, rfl, by decide⟩,
    C5_checksum_mismatch_only_counts sampleCommands sampleUpstream sampleCrc 2
      sampleConnected 7 3 [1, 2] [0, 0, 0, 0] [.byte 5] rfl rfl (by decide)⟩

/-- C6 at a concrete input: a CONNECT with a 3-byte payload in the initial
state. -/
theorem C6_connect_bad_payload_witness :
    (Listen.state = .Disconnected ∧
      (0 : Nat) &&& 0x7F = sampleCommands.connect ∧ [1, 2, 3].length ≠ 6) ∧
    handleRxPacket sampleCommands sampleUpstream Listen
      { command := 0, payload := [1, 2, 3] } = .done Listen [] :=
  ⟨⟨rfl, by decide, by decide⟩,
    C6_connect_bad_payload_dropped sampleCommands sampleUpstream Listen
      { command := 0, payload := [1, 2, 3] } rfl (by decide) (by decide)⟩

/-- C7 at a concrete input: the sample CONNECT in the initial state, dial
answered with connection 7. -/
theorem C7_connect_dial_success_witness :
    (sampleCommands.Distinct ∧ Listen.state = .Disconnected ∧
      sampleConnect.command &&& 0x7F = sampleCommands.connect ∧
      sampleConnect.payload.length = 6 ∧
      sampleUpstream.dial (dstStr sampleConnect.payload) = some 7) ∧
    ∃ g1 evs,
      handleRxPacket sampleCommands sampleUpstream Listen sampleConnect = .done g1 evs ∧
      g1.state = .Connected ∧ g1.uStream = some 7 ∧ g1.txBuff = some Listen.chans ∧
      .makeChan Listen.chans ∈ evs ∧
      sent evs = [(Listen.chans,
        { length := 0, command := sampleCommands.connack, payload := [], crc := 0 })] :=
  ⟨⟨by decide, rfl, by decide, rfl, rfl⟩,
    C7_connect_dial_success sampleCommands sampleUpstream Listen 7 sampleConnect
      (by decide) rfl (by decide) rfl rfl⟩

/-- C8 at a concrete input: the sample CONNECT in the initial state, dial
refused. -/
theorem C8_connect_dial_failure_witness :
    (sampleCommands.Distinct ∧ Listen.state = .Disconnected ∧
      sampleConnect.command &&& 0x7F = sampleCommands.connect ∧
      sampleConnect.payload.length = 6 ∧
      sampleUnreachable.dial (dstStr sampleConnect.payload) = none) ∧
    ∃ g1 evs,
      handleRxPacket sampleCommands sampleUnreachable Listen sampleConnect =
        .done g1 evs ∧
      sent evs = [(Listen.chans,
        { length := 0, command := sampleCommands.disconnect, payload := [], crc := 0 })] ∧
      (∀ q ∈ sent evs, q.2.command ≠ sampleCommands.connack) ∧
      .closeChan Listen.chans ∈ evs ∧
      g1.txBuff = none ∧ g1.state = .Disconnected :=
  ⟨⟨by decide, rfl, by decide, rfl, rfl⟩,
    C8_connect_dial_failure sampleCommands sampleUnreachable Listen sampleConnect
      (by decide) rfl (by decide) rfl rfl⟩

/-- C9 at a concrete input: the sample CONNECT, whose payload is
`[127, 0, 0, 1, 0x90, 0x1f]`. -/
theorem C9_dial_address_witness :
    (sampleCommands.Distinct ∧ Listen.state = .Disconnected ∧
      sampleConnect.command &&& 0x7F = sampleCommands.connect ∧
      sampleConnect.payload = [127, 0, 0, 1, 0x90, 0x1f]) ∧
    (dialled (handleRxPacket sampleCommands sampleUpstream Listen sampleConnect).events =
      [String.mk (decimal 127 ++ '.' :: (decimal 0 ++ '.' :: (decimal 0 ++ '.' ::
        (decimal 1 ++ ':' :: decimal (0x90 + 256 * 0x1f)))))] ∧
    (∀ n ∈ [127, 0, 0, 1, 0x90 + 256 * 0x1f], n ≠ 0 → (decimal n).head? ≠ some '0') ∧
    (0x90 < 256 → 0x1f < 256 → 0x90 + 256 * 0x1f < 65536)) :=
  ⟨⟨by decide, rfl, by decide, rfl⟩,
    C9_dial_address_is_dotted_decimal sampleCommands sampleUpstream Listen sampleConnect
      127 0 0 1 0x90 0x1f (by decide) rfl (by decide) rfl⟩

/-- C10 at a concrete input: the sample PUBLISH in the initial, Disconnected
state. -/
theorem C10_invalid_command_witness :
    (sampleCommands.Distinct ∧ Listen.state = .Disconnected ∧
      samplePublish.command &&& 0x7F = sampleCommands.publish) ∧
    handleRxPacket sampleCommands sampleUpstream Listen samplePublish = .done Listen [] :=
  ⟨⟨by decide, rfl, by decide⟩,
    C10_invalid_command_is_noop sampleCommands sampleUpstream Listen samplePublish
      (by decide) (Or.inl ⟨rfl, Or.inl (by decide)⟩)⟩

/-! ## Link lifecycle: properties -/

/-- The events of `dropLink` contain no send. -/
theorem sent_dropLink (g : gateway) : sent (dropLink g).2 = [] := by
  unfold dropLink
  cases g.uStream <;> cases g.txBuff <;> rfl

/-- C11: `dropLink` is idempotent on the gateway state: a second call gives
the state of the first, which is Disconnected with a nil outbound queue; the
second call closes no queue, and over both calls at most one queue is
closed. -/
theorem C11_dropLink_idempotent (g : gateway) :
    (dropLink (dropLink g).1).1 = (dropLink g).1 ∧
    (dropLink g).1.state = .Disconnected ∧
    (dropLink g).1.txBuff = none ∧
    closedChans (dropLink (dropLink g).1).2 = [] ∧
    (closedChans ((dropLink g).2 ++ (dropLink (dropLink g).1).2)).length ≤ 1 := by
  refine ⟨rfl, rfl, rfl, ?_, ?_⟩
  · unfold dropLink
    cases g.uStream <;> rfl
  · unfold dropLink
    cases g.uStream <;> cases g.txBuff <;> simp [closedChans]

/-! ## Packet framer: escalation, round trip and short lengths -/

/-- C14: the escalation test at the head of a framing pass.  With the counter
at 5 or more and the state Connected (and its queue `ch`), the pass ends the
framer whatever the input holds: exactly one DISCONNECT is enqueued and
`dropLink` has run.  With the counter at 5 or more and any other state, the
pass is the frame pass with the counter at 0, the same state and the same
input.  With the counter below 5 the pass is the frame pass with the counter
as it is. -/
theorem C14_escalation_at_five
    (k : Commands) (env : Upstream) (calcCrc : Packet → Nat) (t : Nat) (g : gateway) :
    (5 ≤ t → g.state = .Connected → ∀ ch, g.txBuff = some ch →
      ∃ g1 evs, (∀ input, readerPass k env calcCrc t g input = .stop (.done g1 evs)) ∧
        g1 = (dropLink g).1 ∧ g1.state = .Disconnected ∧
        evs = .send ch { command := k.disconnect } :: (dropLink g).2 ∧
        sent evs = [(ch, { length := 0, command := k.disconnect, payload := [], crc := 0 })]) ∧
    (5 ≤ t → g.state ≠ .Connected →
      ∀ input, readerPass k env calcCrc t g input = framePass k env calcCrc 0 g input) ∧
    (t < 5 →
      ∀ input, readerPass k env calcCrc t g input = framePass k env calcCrc t g input) := by
  refine ⟨?_, ?_, ?_⟩
  · intro ht hs ch htx
    refine ⟨_, _, ?_, rfl, rfl, rfl, ?_⟩
    · intro input
      simp [readerPass, ht, hs, htx]
    · simp [sent, sent_dropLink]
  · intro ht hs input
    simp [readerPass, ht, hs]
  · intro ht input
    have h5 : ¬ t ≥ 5 := by omega
    simp [readerPass, h5]

/-- Decoding the four little-endian bytes of a 32-bit value gives it back. -/
theorem uint32LE_le32 (v : Nat) (h : v < 2 ^ 32) : uint32LE (le32 v) = v := by
  simp only [uint32LE, le32, List.getD_cons_zero, List.getD_cons_succ]
  omega

/-- C17: framing round trip.  For a command byte `c` and a payload `P` of at
most 250 bytes whose checksum over length, command and payload is the 32-bit
value `v`, the stream `[len P + 5, c]`, `P`, the four little-endian bytes of
`v`, delivered without timeout, is consumed up to its last byte (`len P + 6`
items), exactly the packet with that length, command and payload is handed to
`handleRxPacket`, and the pass goes on with the counter at 0.  The length
fits a byte. -/
theorem C17_framing_round_trip
    (k : Commands) (env : Upstream) (calcCrc : Packet → Nat) (t : Nat) (g : gateway)
    (c : Nat) (P : List Nat) (v : Nat) (rest : List Rx)
    (hP : P.length ≤ 250)
    (hv : ∀ x, calcCrc { length := P.length + 5, command := c, payload := P, crc := x } = v)
    (h32 : v < 2 ^ 32) :
    framePass k env calcCrc t g
        (.byte (P.length + 5) :: .byte c :: (P.map Rx.byte ++ ((le32 v).map Rx.byte ++ rest))) =
      (match handleRxPacket k env g
          { length := P.length + 5, command := c, payload := P, crc := v } with
        | .done g1 evs => .next 0 g1 rest evs
        | o => .stop o) ∧
    (.byte (P.length + 5) :: .byte c :: (P.map Rx.byte ++ ((le32 v).map Rx.byte ++ rest))).length
      = (P.length + 6) + rest.length ∧
    P.length + 5 < 256 := by
  refine ⟨?_, ?_, by omega⟩
  · have hr := receiveFrame_whole (P.length + 5) c P (le32 v) rest (by simp) rfl
    rw [uint32LE_le32 v h32] at hr
    simp only [framePass, hr, hv v, ne_eq, not_true_eq_false, if_false]
  · simp [le32]; omega

/-- The dispatcher never looks at the length field of a packet. -/
theorem handleRxPacket_length (k : Commands) (env : Upstream) (g : gateway)
    (p : Packet) (L : Nat) :
    handleRxPacket k env g { p with length := L } = handleRxPacket k env g p := by
  rfl

/-- C19: a length byte below 5 is not rejected.  After such a length byte `L`
and the command byte no payload byte is read: the next four bytes are the
checksum, so the frame takes six items of the stream; if the checksum equals
`calcCrc` of the packet with length `L` and empty payload, that packet is
handed to `handleRxPacket` and the pass goes on with the counter at 0.  A
frame with length byte 5 is read in the same way, and the dispatcher does the
same with both packets. -/
theorem C19_short_length_accepted
    (k : Commands) (env : Upstream) (calcCrc : Packet → Nat) (t : Nat) (g : gateway)
    (L c : Nat) (cs : List Nat) (rest : List Rx)
    (hL : L < 5) (hcs : cs.length = 4)
    (hcrc : calcCrc { length := L, command := c, payload := [], crc := uint32LE cs }
      = uint32LE cs) :
    receiveFrame (.byte L :: .byte c :: (cs.map Rx.byte ++ rest)) =
      .got { length := L, command := c, payload := [], crc := uint32LE cs } rest ∧
    receiveFrame (.byte 5 :: .byte c :: (cs.map Rx.byte ++ rest)) =
      .got { length := 5, command := c, payload := [], crc := uint32LE cs } rest ∧
    framePass k env calcCrc t g (.byte L :: .byte c :: (cs.map Rx.byte ++ rest)) =
      (match handleRxPacket k env g
          { length := L, command := c, payload := [], crc := uint32LE cs } with
        | .done g1 evs => .next 0 g1 rest evs
        | o => .stop o) ∧
    handleRxPacket k env g { length := L, command := c, payload := [], crc := uint32LE cs } =
      handleRxPacket k env g { length := 5, command := c, payload := [], crc := uint32LE cs } := by
  have hr := receiveFrame_whole L c [] cs rest (by simp; omega) hcs
  have hr5 := receiveFrame_whole 5 c [] cs rest rfl hcs
  simp only [List.map_nil, List.nil_append] at hr hr5
  refine ⟨hr, hr5, ?_, rfl⟩
  simp only [framePass, hr, hcrc, ne_eq, not_true_eq_false, if_false]

/-! ## Gateway teardown is final for dispatch -/

/-- In the state TransportNotReady every packet is a no-op. -/
theorem handleRxPacket_transportNotReady (k : Commands) (env : Upstream) (g : gateway)
    (p : Packet) (hs : g.state = .TransportNotReady) :
    handleRxPacket k env g p = .done g [] := by
  unfold handleRxPacket
  simp only [hs]
  split_ifs <;> first | rfl | simp_all

/-- A sequence of packets dispatched in the state TransportNotReady leaves
the state as it is and produces no event. -/
theorem handleAll_transportNotReady (k : Commands) (env : Upstream) (g : gateway)
    (hs : g.state = .TransportNotReady) (ps : List Packet) :
    handleAll k env g ps = .done g [] := by
  induction ps with
  | nil => rfl
  | cons p ps ih =>
    simp only [handleAll, handleRxPacket_transportNotReady k env g p hs, ih]
    rfl

/-- On a gateway whose inbound queue is still open `dropGateway` returns, with
the state TransportNotReady, a nil outbound queue and the inbound queue
closed. -/
theorem dropGateway_first (g : gateway) (hrx : g.rxClosed = false) :
    dropGateway g =
      .done { (dropLink g).1 with rxClosed := true, state := .TransportNotReady }
        ((dropLink g).2 ++ [.closeCom, .closeRx]) := by
  have h : (dropLink g).1.rxClosed = false := hrx
  simp [dropGateway, h]

/-- On a gateway whose inbound queue is closed already `dropGateway` panics
at `close(g.rxBuff)`, in the state `dropLink` has left. -/
theorem dropGateway_again (g : gateway) (hrx : g.rxClosed = true) :
    dropGateway g = .panicked (dropLink g).1 ((dropLink g).2 ++ [.closeCom]) := by
  have h : (dropLink g).1.rxClosed = true := hrx
  simp [dropGateway, h]

/-- C18 as stated fails for a second `dropGateway`: in the sample session
after `dropGateway`, whose state is TransportNotReady with the inbound queue
closed, `dropGateway` runs `dropLink`, closes the transport and panics at
`close(g.rxBuff)`; the state it leaves is Disconnected, not
TransportNotReady. -/
theorem C18_second_dropGateway_panics :
    sampleShutDown.state = .TransportNotReady ∧ sampleShutDown.rxClosed = true ∧
    dropGateway sampleShutDown =
      .panicked { sampleShutDown with state := .Disconnected }
        [.closeConn 7, .closeCom] ∧
    (dropGateway sampleShutDown).gw.state ≠ .TransportNotReady := by
  decide

/-- C18, amended: on a gateway whose inbound queue has not been closed
before, `dropGateway` returns and leaves the state TransportNotReady with a
nil outbound queue; in a state TransportNotReady `handleRxPacket` returns with
no event (nothing enqueued, dialled or written, no ack delivered) and the
state unchanged for every packet, and so does any sequence of packets
dispatched one after the other, in particular in the state `dropGateway` has
left: the state stays TransportNotReady. -/
theorem C18_first_dropGateway_is_terminal
    (k : Commands) (env : Upstream) (g h : gateway)
    (hrx : g.rxClosed = false) (hs : h.state = .TransportNotReady) :
    (∃ g1 e, dropGateway g = .done g1 e ∧ g1.state = .TransportNotReady ∧
      g1.txBuff = none ∧ g1.rxClosed = true ∧
      ∀ ps, handleAll k env g1 ps = .done g1 []) ∧
    (∀ p, handleRxPacket k env h p = .done h []) ∧
    (∀ ps, handleAll k env h ps = .done h []) :=
  ⟨⟨_, _, dropGateway_first g hrx, rfl, rfl, rfl,
      fun ps => handleAll_transportNotReady k env _ rfl ps⟩,
    fun p => handleRxPacket_transportNotReady k env h p hs,
    fun ps => handleAll_transportNotReady k env h hs ps⟩

/-! ## Reachable states -/

/-- The queues closed in two runs of events. -/
theorem closedChans_append (a b : List Event) :
    closedChans (a ++ b) = closedChans a ++ closedChans b := by
  induction a with
  | nil => rfl
  | cons e a ih => cases e <;> simp [closedChans, ih]

/-- The connections closed in two runs of events. -/
theorem closedConns_append (a b : List Event) :
    closedConns (a ++ b) = closedConns a ++ closedConns b := by
  induction a with
  | nil => rfl
  | cons e a ih => cases e <;> simp [closedConns, ih]

/-- The queues made in two runs of events. -/
theorem madeChans_append (a b : List Event) :
    madeChans (a ++ b) = madeChans a ++ madeChans b := by
  induction a with
  | nil => rfl
  | cons e a ih => cases e <;> simp [madeChans, ih]

/-- The queue handles of two runs of events. -/
theorem chansOf_append (a b : List Event) :
    chansOf (a ++ b) = chansOf a ++ chansOf b := by
  induction a with
  | nil => rfl
  | cons e a ih => cases e <;> simp [chansOf, ih]

/-- A closed queue is among the queue handles of the events. -/
theorem closedChans_subset (evs : List Event) (ch : Nat) (h : ch ∈ closedChans evs) :
    ch ∈ chansOf evs := by
  induction evs with
  | nil => simp [closedChans] at h
  | cons e evs ih =>
    cases e <;> simp only [closedChans, chansOf, List.mem_cons] at h ⊢ <;>
      first
      | exact ih h
      | exact Or.inr (ih h)
      | exact h.imp id ih

/-- The initial state is sound. -/
theorem Sound_start : Sound Listen [] := by
  constructor <;> simp [Listen, chansOf]

/-- The step `dropLink` keeps the state sound. -/
theorem Sound_dropLink (g : gateway) (evs : List Event) (h : Sound g evs) :
    Sound (dropLink g).1 (evs ++ (dropLink g).2) := by
  obtain ⟨hw, hi, hq, hh, hc⟩ := h
  constructor
  · intro hs; simp [dropLink] at hs
  · intro _; rfl
  · intro ch hch; simp [dropLink] at hch
  · intro ch hch
    rw [chansOf_append, List.mem_append] at hch
    rcases hch with hch | hch
    · exact hh ch hch
    · revert hch
      unfold dropLink
      cases hu : g.uStream <;> cases ht : g.txBuff <;> simp [chansOf]
      all_goals (intro hx; subst hx; exact (hq _ ht).1)
  · intro _ c hu
    rw [closedConns_append, List.mem_append]
    right
    have hu2 : g.uStream = some c := hu
    unfold dropLink
    rw [hu2]
    cases g.txBuff <;> simp [closedConns]

/-- A packet put on the queue of the state keeps the state sound. -/
theorem Sound_published (g : gateway) (evs : List Event) (ch : Nat) (p : Packet)
    (htx : g.txBuff = some ch) (h : Sound g evs) : Sound g (evs ++ [.send ch p]) := by
  obtain ⟨hw, hi, hq, hh, hc⟩ := h
  refine ⟨hw, hi, ?_, ?_, ?_⟩
  · intro ch2 h2
    have := hq ch2 h2
    simp [madeChans_append, closedChans_append, madeChans, closedChans, this]
  · intro ch2 h2
    simp only [chansOf_append, chansOf, List.mem_append, List.mem_singleton] at h2
    rcases h2 with h2 | h2
    · exact hh ch2 h2
    · rw [h2]; exact (hq ch htx).1
  · intro hs c hu
    simp [closedConns_append, closedConns, hc hs c hu]

/-- The step `handleRxPacket` keeps the state sound, however the call ends. -/
theorem Sound_handleRxPacket (k : Commands) (env : Upstream) (g : gateway) (p : Packet)
    (evs : List Event) (h : Sound g evs) :
    Sound (handleRxPacket k env g p).gw (evs ++ (handleRxPacket k env g p).events) := by
  have hd := Sound_dropLink g evs h
  obtain ⟨hw, hi, hq, hh, hc⟩ := h
  unfold handleRxPacket
  simp only []
  repeat' split
  all_goals
    first
    | exact hd
    | (constructor <;>
        simp_all [Outcome.gw, Outcome.events, dropLink, closedChans_append,
          closedConns_append, madeChans_append, chansOf_append, chansOf, closedChans,
          closedConns, madeChans] <;>
        first
        | (rintro ch (h | rfl)
           · first | exact hh _ h | exact Nat.lt_succ_of_lt (hh _ h)
           · first | exact hq.1 | omega)
        | exact fun h => Nat.lt_irrefl _ (hh _ (closedChans_subset _ _ h)))

/-- Events that concern no queue keep the state sound. -/
theorem Sound_quiet (g : gateway) (evs e : List Event) (h : Sound g evs)
    (h1 : chansOf e = []) (h2 : madeChans e = []) (h3 : closedChans e = []) :
    Sound g (evs ++ e) := by
  obtain ⟨hw, hi, hq, hh, hc⟩ := h
  refine ⟨hw, hi, ?_, ?_, ?_⟩
  · intro ch hch
    simpa [madeChans_append, closedChans_append, h2, h3] using hq ch hch
  · intro ch hch
    apply hh ch
    simpa [chansOf_append, h1] using hch
  · intro hs c hu
    rw [closedConns_append, List.mem_append]
    exact Or.inl (hc hs c hu)

/-- The step `dropGateway` keeps the state sound, whether it returns or
panics. -/
theorem Sound_dropGateway (g : gateway) (evs : List Event) (h : Sound g evs) :
    Sound (dropGateway g).gw (evs ++ (dropGateway g).events) := by
  have hd := Sound_dropLink g evs h
  cases hrx : g.rxClosed with
  | true =>
    rw [dropGateway_again g hrx]
    have hq := Sound_quiet _ _ [.closeCom] hd rfl rfl rfl
    simpa [Outcome.gw, Outcome.events, List.append_assoc] using hq
  | false =>
    rw [dropGateway_first g hrx]
    have hq := Sound_quiet _ _ [.closeCom, .closeRx] hd rfl rfl rfl
    obtain ⟨-, -, -, hh, -⟩ := hq
    simp only [Outcome.gw, Outcome.events]
    constructor
    · intro hs; simp at hs
    · intro _; rfl
    · intro ch hch; simp [dropLink] at hch
    · intro ch hch
      apply hh ch
      simpa [List.append_assoc] using hch
    · intro hs; simp at hs

/-- The teardown sequence keeps the state sound, whether it runs through or
blocks. -/
theorem Sound_teardown (k : Commands) (g : gateway) (evs : List Event) (h : Sound g evs) :
    Sound (teardown k g).gw (evs ++ (teardown k g).events) := by
  unfold teardown
  cases htx : g.txBuff with
  | none => simpa [Outcome.gw, Outcome.events] using h
  | some ch =>
    have h2 := Sound_dropLink g _
      (Sound_published g evs ch { command := k.disconnect } htx h)
    simpa [Outcome.gw, Outcome.events] using h2

/-- Every reachable state is sound. -/
theorem Reachable_sound (k : Commands) (g : gateway) (evs : List Event)
    (h : Reachable k g evs) : Sound g evs := by
  induction h with
  | start => exact Sound_start
  | handled env p _ ih => exact Sound_handleRxPacket k env _ p _ ih
  | linkDropped _ ih => exact Sound_dropLink _ _ ih
  | gatewayDropped _ ih => exact Sound_dropGateway _ _ ih
  | tornDown _ ih => exact Sound_teardown k _ _ ih
  | published p htx _ ih => exact Sound_published _ _ _ p htx ih

/-- An ACKNOWLEDGE handled while Connected is handed to the publisher when the
publisher takes it; otherwise the dispatcher stays in the send, with the
state as it was and nothing delivered. -/
theorem handleRxPacket_acknowledge (k : Commands) (env : Upstream) (g : gateway)
    (p : Packet) (hk : k.Distinct) (hs : g.state = .Connected)
    (hp : p.command &&& 0x7F = k.acknowledge) :
    (env.ackTaken = true → handleRxPacket k env g p = .done g [.ackEvent (seqFlag p)]) ∧
    (env.ackTaken = false → handleRxPacket k env g p = .stalled g []) := by
  obtain ⟨h1, -, -, -, -, -, -, -, -, -⟩ := hk
  constructor <;> intro ha <;> simp [handleRxPacket, hs, hp, ha, Ne.symm h1]

/-- From a state in which Connected comes with a queue and a connection,
`handleRxPacket` neither blocks on a nil queue nor panics on a nil connection:
it returns, or it stays in the send on `g.acknowledgeEvent`, which happens
only for an ACKNOWLEDGE that no publisher takes. -/
theorem handleRxPacket_ends (k : Commands) (env : Upstream) (g : gateway) (p : Packet)
    (hw : g.state = .Connected → ∃ ch c, g.txBuff = some ch ∧ g.uStream = some c) :
    (∃ g1 e, handleRxPacket k env g p = .done g1 e) ∨
    (handleRxPacket k env g p = .stalled g [] ∧ env.ackTaken = false ∧
      p.command &&& 0x7F = k.acknowledge ∧ p.command &&& 0x7F ≠ k.publish) := by
  unfold handleRxPacket
  simp only []
  repeat' split
  all_goals first | exact Or.inl ⟨_, _, rfl⟩ | simp_all

/-- From a state in which Connected comes with a queue and a connection,
`handleRxPacket` returns for every PUBLISH: the sends and the write of that
branch meet a queue and a connection. -/
theorem handleRxPacket_publish_returns (k : Commands) (env : Upstream) (g : gateway)
    (p : Packet)
    (hw : g.state = .Connected → ∃ ch c, g.txBuff = some ch ∧ g.uStream = some c)
    (hp : p.command &&& 0x7F = k.publish) :
    ∃ g1 e, handleRxPacket k env g p = .done g1 e := by
  rcases handleRxPacket_ends k env g p hw with h | ⟨-, -, -, hne⟩
  · exact h
  · exact absurd hp hne

/-- C12 as stated fails: after the sample CONNECT (dial answered with
connection 7) and the sample DISCONNECT, both handled from the initial state,
the gateway is Disconnected with a nil outbound queue, but `uStream` still
holds connection 7, which `dropLink` closed and did not reset. -/
theorem C12_uStream_kept_when_disconnected :
    Reachable sampleCommands sampleAfterDisconnect.gw
      (([] ++ sampleAfterConnect.events) ++ sampleAfterDisconnect.events) ∧
    sampleAfterDisconnect.gw.state = .Disconnected ∧
    sampleAfterDisconnect.gw.txBuff = none ∧
    sampleAfterDisconnect.gw.uStream = some 7 ∧
    ¬ (sampleAfterDisconnect.gw.uStream = none ∧ sampleAfterDisconnect.gw.txBuff = none) :=
  ⟨Reachable.handled sampleUpstream sampleDisconnect
      (Reachable.handled sampleUpstream sampleConnect Reachable.start),
    by decide, by decide, by decide, by decide⟩

/-- C12, amended: in every reachable state that is Disconnected the outbound
queue handle is nil, and the upstream handle is nil or holds a connection
that has been closed. -/
theorem C12_disconnected_queue_nil_connection_closed
    (k : Commands) (g : gateway) (evs : List Event)
    (h : Reachable k g evs) (hs : g.state = .Disconnected) :
    g.txBuff = none ∧
    (g.uStream = none ∨ ∃ c, g.uStream = some c ∧ c ∈ closedConns evs) := by
  have hsound := Reachable_sound k g evs h
  refine ⟨hsound.idle (by simp [hs]), ?_⟩
  cases hu : g.uStream with
  | none => exact Or.inl rfl
  | some c => exact Or.inr ⟨c, rfl, hsound.connClosed hs c hu⟩

/-! ## Downstream publisher: sequence flags and retries -/

/-- Events put in front of a publisher run come first in its events. -/
theorem senderEnd_events_after (pre : List Event) (e : SenderEnd) :
    (e.after pre).events = pre ++ e.events := by
  cases e with
  | stop o => cases o <;> rfl
  | waiting f r g evs => rfl

/-- Events put in front of a `PUB_LOOP` result come first in its events. -/
theorem pubEnd_events_after (pre : List Event) (e : PubEnd) :
    (e.after pre).events = pre ++ e.events := by
  cases e with
  | acked rest evs => rfl
  | ended e => exact senderEnd_events_after pre e

/-- Every pass of `PUB_LOOP` starts by sending the packet on the queue. -/
theorem pubLoop_first_send (k : Commands) (g : gateway) (ch : Nat) (p : Packet)
    (f : Bool) (htx : g.txBuff = some ch) (r : Nat) (waits : List AckWait) :
    ∃ tail, (pubLoop k g p f r waits).events = .send ch p :: tail := by
  cases waits with
  | nil => exact ⟨[], by simp [pubLoop, htx, PubEnd.events, SenderEnd.events]⟩
  | cons w rest =>
    cases w with
    | ack a =>
      by_cases ha : a = f
      · exact ⟨[], by simp [pubLoop, htx, ha, PubEnd.events]⟩
      · exact ⟨_, by simp only [pubLoop, htx, ha, if_false, pubEnd_events_after]; rfl⟩
    | closed => exact ⟨_, by simp only [pubLoop, htx, pubEnd_events_after]; rfl⟩
    | timeout =>
      by_cases hr : r + 1 ≥ 5
      · exact ⟨_, by simp only [pubLoop, htx, hr, if_true, PubEnd.events, SenderEnd.events,
          Outcome.events]; rfl⟩
      · exact ⟨_, by simp only [pubLoop, htx, hr, if_false, pubEnd_events_after]; rfl⟩

/-- The first event of the publisher on a chunk is the send of its PUBLISH,
with the sequence flag the publisher has then. -/
theorem senderLoop_first_send (k : Commands) (g : gateway) (ch : Nat) (f : Bool) (r : Nat)
    (chunk : List Nat) (reads : List (Option (List Nat))) (waits : List AckWait)
    (htx : g.txBuff = some ch) :
    ∃ tail, (senderLoop k g f r (some chunk :: reads) waits).events =
      .send ch (publishPacket k f chunk) :: tail := by
  obtain ⟨tail, ht⟩ := pubLoop_first_send k g ch (publishPacket k f chunk) f htx r waits
  unfold publishPacket at ht
  simp only [senderLoop]
  split
  · rename_i rest evs hp
    rw [hp] at ht
    simp only [PubEnd.events] at ht
    exact ⟨_, by rw [senderEnd_events_after, ht]; rfl⟩
  · rename_i e hp
    rw [hp] at ht
    exact ⟨tail, ht⟩

/-- Bit 7 and the low seven bits of a 7-bit code, alone and with bit 7 set. -/
theorem seven_bit_code (n : Nat) (h : n < 128) :
    n &&& 0x80 = 0 ∧ n &&& 0x7F = n ∧ (n ||| 0x80) &&& 0x80 = 0x80 ∧
      (n ||| 0x80) &&& 0x7F = n := by
  interval_cases n <;> decide

/-- The PUBLISH built for a chunk carries the publisher's sequence flag in bit
7, the code `publish` in the low bits and the chunk as payload. -/
theorem publishPacket_flag (k : Commands) (f : Bool) (chunk : List Nat)
    (hpub : k.publish < 128) :
    seqFlag (publishPacket k f chunk) = f ∧
    (publishPacket k f chunk).command &&& 0x7F = k.publish ∧
    (publishPacket k f chunk).payload = chunk := by
  obtain ⟨h1, h2, h3, h4⟩ := seven_bit_code k.publish hpub
  cases f <;> simp [publishPacket, seqFlag, h1, h2, h3, h4]

/-- A matching ACKNOWLEDGE after answers that neither acknowledge the packet
nor exhaust the retries ends `PUB_LOOP` with success; the packet has been sent
once, and once more for each of those answers. -/
theorem pubLoop_acked (k : Commands) (g : gateway) (ch : Nat) (p : Packet) (f : Bool)
    (rest : List AckWait) (htx : g.txBuff = some ch) :
    ∀ (pre : List AckWait) (r : Nat), AckWait.ack f ∉ pre →
      r + pre.count AckWait.timeout < 5 →
      pubLoop k g p f r (pre ++ .ack f :: rest) =
        .acked rest (List.replicate (pre.length + 1) (.send ch p)) := by
  intro pre
  induction pre with
  | nil => intro r _ _; simp [pubLoop, htx]
  | cons w pre ih =>
    intro r hmem hcount
    have hmem2 : AckWait.ack f ∉ pre := fun h => hmem (List.mem_cons_of_mem _ h)
    cases w with
    | ack a =>
      have ha : a ≠ f := fun h => hmem (by rw [h]; exact List.mem_cons_self _ _)
      have hc : r + pre.count AckWait.timeout < 5 := by
        simpa [List.count_cons] using hcount
      simp [pubLoop, htx, ha, ih r hmem2 hc, PubEnd.after, List.replicate_succ]
    | closed =>
      have hc : r + pre.count AckWait.timeout < 5 := by
        simpa [List.count_cons] using hcount
      simp [pubLoop, htx, ih r hmem2 hc, PubEnd.after, List.replicate_succ]
    | timeout =>
      have hc : (r + 1) + pre.count AckWait.timeout < 5 := by
        simp [List.count_cons] at hcount; omega
      have hr : ¬ r + 1 ≥ 5 := by omega
      simp [pubLoop, htx, hr, ih (r + 1) hmem2 hc, PubEnd.after, List.replicate_succ]

/-- A matching ACKNOWLEDGE makes the publisher go on to the next read with
the sequence flag negated and the retry counter at 0. -/
theorem senderLoop_acked (k : Commands) (g : gateway) (ch : Nat) (f : Bool) (r : Nat)
    (chunk : List Nat) (reads : List (Option (List Nat))) (pre rest : List AckWait)
    (htx : g.txBuff = some ch) (hmem : AckWait.ack f ∉ pre)
    (hcount : r + pre.count AckWait.timeout < 5) :
    senderLoop k g f r (some chunk :: reads) (pre ++ .ack f :: rest) =
      (senderLoop k g (!f) 0 reads rest).after
        (List.replicate (pre.length + 1) (.send ch (publishPacket k f chunk))) := by
  have h := pubLoop_acked k g ch (publishPacket k f chunk) f rest htx pre r hmem hcount
  unfold publishPacket at h
  simp only [senderLoop, h]
  rfl

/-- Negating the parity flag of a number gives the parity flag of the next. -/
theorem parity_succ (i : Nat) : (!decide (i % 2 = 1)) = decide ((i + 1) % 2 = 1) := by
  rcases Nat.mod_two_eq_zero_or_one i with h | h
  · have h2 : (i + 1) % 2 = 1 := by omega
    simp [h, h2]
  · have h2 : (i + 1) % 2 = 0 := by omega
    simp [h, h2]

/-- The publisher over a session of acknowledged rounds: after the last round
it waits for the next read with the retry counter at 0, and its events are
the sends of the rounds. -/
theorem senderLoop_rounds (k : Commands) (g : gateway) (ch : Nat)
    (htx : g.txBuff = some ch) :
    ∀ (rounds : List (List Nat × List AckWait)) (i : Nat), roundsOpen i rounds →
      senderLoop k g (decide (i % 2 = 1)) 0 (rounds.map (fun r => some r.1))
          (roundWaits i rounds) =
        .waiting (decide ((i + rounds.length) % 2 = 1)) 0 g (roundSends k ch i rounds) := by
  intro rounds
  induction rounds with
  | nil => intro i _; simp [senderLoop, roundSends]
  | cons r rounds ih =>
    intro i hopen
    obtain ⟨chunk, pre⟩ := r
    obtain ⟨⟨hmem, hcount⟩, hrest⟩ := hopen
    have hstep := senderLoop_acked k g ch (decide (i % 2 = 1)) 0 chunk
      (rounds.map (fun r => some r.1)) pre (roundWaits (i + 1) rounds) htx hmem
      (by omega)
    simp only [List.map_cons, roundWaits, hstep, parity_succ, ih (i + 1) hrest,
      SenderEnd.after, roundSends, List.length_cons]
    congr 2
    rw [Nat.add_assoc, Nat.add_comm 1]

/-- C13: a reachable Connected state has a queue `ch` and a connection `c`;
`dropLink` closes both and leaves the queue handle nil.  A CONNECT with a
6-byte payload that follows, its dial answered with `c2`, gives a Connected
state with `expectedRxSeqFlag` false, the dialled connection, and a queue made
in this call whose handle occurs nowhere in the events before; a publisher is
started, and the first thing a publisher does in that state for its first
chunk is to send a PUBLISH with bit 7 clear and the chunk as payload. -/
theorem C13_session_reset_after_dropLink
    (k : Commands) (env : Upstream) (g : gateway) (evs0 : List Event) (p : Packet)
    (c2 : Nat) (chunk : List Nat) (reads : List (Option (List Nat))) (waits : List AckWait)
    (hr : Reachable k g evs0) (hs : g.state = .Connected)
    (hk : k.Distinct) (hpub : k.publish < 128)
    (hp : p.command &&& 0x7F = k.connect) (hlen : p.payload.length = 6)
    (hd : env.dial (dstStr p.payload) = some c2) :
    ∃ ch c, g.txBuff = some ch ∧ g.uStream = some c ∧
      (dropLink g).2 = [.closeConn c, .closeChan ch] ∧ (dropLink g).1.txBuff = none ∧
      ∃ g2 evs q tail,
        handleRxPacket k env (dropLink g).1 p = .done g2 evs ∧
        g2.state = .Connected ∧ g2.expectedRxSeqFlag = false ∧ g2.uStream = some c2 ∧
        g2.txBuff = some q ∧ madeChans evs = [q] ∧ closedChans evs = [] ∧
        q ∉ chansOf (evs0 ++ (dropLink g).2) ∧
        .goPacketSender ∈ evs ∧
        (packetSender k g2 (some chunk :: reads) waits).events =
          .send q { length := 0, command := k.publish, payload := chunk, crc := 0 } :: tail ∧
        seqFlag { length := 0, command := k.publish, payload := chunk, crc := 0 } = false := by
  have hsound := Reachable_sound k g evs0 hr
  obtain ⟨ch, c, htx, hu⟩ := hsound.wired hs
  have hsound2 := Sound_dropLink g evs0 hsound
  have hev : (dropLink g).2 = [.closeConn c, .closeChan ch] := by
    simp [dropLink, htx, hu]
  have hcon := handleRxPacket_connect_dialled k env (dropLink g).1 c2 p hk rfl hp hlen hd
  obtain ⟨tail, htail⟩ := senderLoop_first_send k
    { state := .Connected, expectedRxSeqFlag := false, txBuff := some (dropLink g).1.chans,
      uStream := some c2, chans := (dropLink g).1.chans + 1,
      rxClosed := (dropLink g).1.rxClosed }
    (dropLink g).1.chans false 0 chunk reads waits rfl
  refine ⟨ch, c, htx, hu, hev, rfl, _, _, (dropLink g).1.chans, tail, hcon, rfl, rfl, rfl,
    rfl, by simp [madeChans], by simp [closedChans], ?_, by simp, ?_, ?_⟩
  · intro hq
    exact Nat.lt_irrefl _ (hsound2.handles _ hq)
  · exact htail
  · exact (publishPacket_flag k false chunk hpub).1

/-- C15 as stated fails for a non-matching ACKNOWLEDGE: with the sample
PUBLISH in flight, sequence flag clear and retry counter 0, an ACKNOWLEDGE
with the flag set makes the publisher send the packet again, but the retry
counter it waits with afterwards is still 0, not 1. -/
theorem C15_mismatched_ack_does_not_count :
    pubLoop sampleCommands sampleConnected samplePublish false 0 [.ack true] =
      .ended (.waiting false 0 sampleConnected
        [.send 0 samplePublish, .send 0 samplePublish]) ∧
    pubLoop sampleCommands sampleConnected samplePublish false 0 [.ack true] ≠
      .ended (.waiting false (0 + 1) sampleConnected
        [.send 0 samplePublish, .send 0 samplePublish]) := by
  constructor <;> decide

/-- C15, amended: with a PUBLISH `p` in flight on the queue `ch`, a timeout
of the ack-wait raises the retry counter by 1 and, as long as that stays below
5, `PUB_LOOP` goes on with the same packet; an ACKNOWLEDGE whose flag differs
from the sequence flag makes `PUB_LOOP` go on with the same packet and the
retry counter as it was; and every pass of `PUB_LOOP` starts by sending that
packet on the queue, so in both cases the identical packet is enqueued
again. -/
theorem C15_timeout_counts_mismatched_ack_does_not
    (k : Commands) (g : gateway) (ch : Nat) (p : Packet) (f : Bool) (r : Nat)
    (rest : List AckWait) (htx : g.txBuff = some ch) :
    (r + 1 < 5 →
      pubLoop k g p f r (.timeout :: rest) =
        (pubLoop k g p f (r + 1) rest).after [.send ch p]) ∧
    (∀ a, a ≠ f →
      pubLoop k g p f r (.ack a :: rest) =
        (pubLoop k g p f r rest).after [.send ch p]) ∧
    (∀ r1, ∃ tail, (pubLoop k g p f r1 rest).events = .send ch p :: tail) ∧
    (r + 1 < 5 →
      pubLoop k g p f r [.timeout] =
        .ended (.waiting f (r + 1) g [.send ch p, .send ch p])) ∧
    (∀ a, a ≠ f →
      pubLoop k g p f r [.ack a] = .ended (.waiting f r g [.send ch p, .send ch p])) := by
  refine ⟨?_, ?_, fun r1 => pubLoop_first_send k g ch p f htx r1 rest, ?_, ?_⟩
  · intro hr
    have hr5 : ¬ r + 1 ≥ 5 := by omega
    simp [pubLoop, htx, hr5]
  · intro a ha
    simp [pubLoop, htx, ha]
  · intro hr
    have hr5 : ¬ r + 1 ≥ 5 := by omega
    simp [pubLoop, htx, hr5, PubEnd.after, SenderEnd.after]
  · intro a ha
    simp [pubLoop, htx, ha, PubEnd.after, SenderEnd.after]

/-- C16: the PUBLISH built for a chunk carries the publisher's sequence flag
in bit 7 and the chunk as payload; a matching ACKNOWLEDGE, after answers that
do not acknowledge the packet, makes the publisher go on with the flag negated
and the retry counter at 0, whatever it was; and over a session in which every
chunk is acknowledged in the end, started with the flag clear, the publisher
sends for the chunk of round `j` (counted from 0) the PUBLISH with bit 7 set
exactly when `j` is odd and that chunk as payload, and ends waiting for the
next read with the retry counter at 0. -/
theorem C16_sequence_flag_alternates
    (k : Commands) (g : gateway) (ch : Nat) (rounds : List (List Nat × List AckWait))
    (htx : g.txBuff = some ch) (hpub : k.publish < 128) (hopen : roundsOpen 0 rounds) :
    (∀ f chunk, seqFlag (publishPacket k f chunk) = f ∧
      (publishPacket k f chunk).command &&& 0x7F = k.publish ∧
      (publishPacket k f chunk).payload = chunk) ∧
    (∀ f r chunk reads pre rest, AckWait.ack f ∉ pre → r + pre.count AckWait.timeout < 5 →
      senderLoop k g f r (some chunk :: reads) (pre ++ .ack f :: rest) =
        (senderLoop k g (!f) 0 reads rest).after
          (List.replicate (pre.length + 1) (.send ch (publishPacket k f chunk)))) ∧
    packetSender k g (rounds.map (fun r => some r.1)) (roundWaits 0 rounds) =
      .waiting (decide (rounds.length % 2 = 1)) 0 g (roundSends k ch 0 rounds) := by
  refine ⟨fun f chunk => publishPacket_flag k f chunk hpub,
    fun f r chunk reads pre rest hmem hcount =>
      senderLoop_acked k g ch f r chunk reads pre rest htx hmem hcount, ?_⟩
  have h := senderLoop_rounds k g ch htx rounds 0 hopen
  simpa [packetSender] using h

/-! ## The framer and the publisher move through reachable states -/

/-- A frame pass leaves the gateway as it is, or does what `handleRxPacket`
does with one packet. -/
theorem framePass_effect (k : Commands) (env : Upstream) (calcCrc : Packet → Nat) (t : Nat)
    (g : gateway) (input : List Rx) :
    ((framePass k env calcCrc t g input).gw = g ∧
      (framePass k env calcCrc t g input).events = []) ∨
    ∃ p, (framePass k env calcCrc t g input).gw = (handleRxPacket k env g p).gw ∧
      (framePass k env calcCrc t g input).events = (handleRxPacket k env g p).events := by
  unfold framePass
  split
  · exact Or.inl ⟨rfl, rfl⟩
  · exact Or.inl ⟨rfl, rfl⟩
  · rename_i p rest _
    split
    · exact Or.inl ⟨rfl, rfl⟩
    · refine Or.inr ⟨p, ?_⟩
      cases handleRxPacket k env g p <;> exact ⟨rfl, rfl⟩

/-- A frame pass from a reachable state ends in a reachable state. -/
theorem framePass_reachable (k : Commands) (env : Upstream) (calcCrc : Packet → Nat)
    (t : Nat) (g : gateway) (input : List Rx) (evs : List Event) (h : Reachable k g evs) :
    Reachable k (framePass k env calcCrc t g input).gw
      (evs ++ (framePass k env calcCrc t g input).events) := by
  rcases framePass_effect k env calcCrc t g input with ⟨h1, h2⟩ | ⟨p, h1, h2⟩
  · rw [h1, h2, List.append_nil]; exact h
  · rw [h1, h2]; exact Reachable.handled env p h

/-- A pass of the framer from a reachable state ends in a reachable state:
the escalation is the teardown sequence. -/
theorem readerPass_reachable (k : Commands) (env : Upstream) (calcCrc : Packet → Nat)
    (t : Nat) (g : gateway) (input : List Rx) (evs : List Event) (h : Reachable k g evs) :
    Reachable k (readerPass k env calcCrc t g input).gw
      (evs ++ (readerPass k env calcCrc t g input).events) := by
  unfold readerPass
  split
  · split
    · have ht := Reachable.tornDown (k := k) h
      unfold teardown at ht
      cases htx : g.txBuff with
      | none => rw [htx] at ht; exact ht
      | some ch => rw [htx] at ht; exact ht
    · exact framePass_reachable k env calcCrc 0 g input evs h
  · exact framePass_reachable k env calcCrc t g input evs h

/-- The loop `PUB_LOOP` from a reachable state: whether it is left with
success or ends the publisher, the state it leaves is reachable. -/
theorem pubLoop_reachable (k : Commands) (g : gateway) (p : Packet) (f : Bool) :
    ∀ (waits : List AckWait) (r : Nat) (evs : List Event), Reachable k g evs →
      (∀ rest e, pubLoop k g p f r waits = .acked rest e → Reachable k g (evs ++ e)) ∧
      (∀ se, pubLoop k g p f r waits = .ended se → Reachable k se.gw (evs ++ se.events)) := by
  intro waits
  induction waits with
  | nil =>
    intro r evs h
    cases htx : g.txBuff with
    | none =>
      simp only [pubLoop, htx]
      refine ⟨fun rest e he => by simp at he, fun se he => ?_⟩
      simp only [PubEnd.ended.injEq] at he
      subst he
      simpa [SenderEnd.gw, SenderEnd.events, Outcome.gw, Outcome.events] using h
    | some ch =>
      simp only [pubLoop, htx]
      refine ⟨fun rest e he => by simp at he, fun se he => ?_⟩
      simp only [PubEnd.ended.injEq] at he
      subst he
      exact Reachable.published p htx h
  | cons w waits ih =>
    intro r evs h
    cases htx : g.txBuff with
    | none =>
      cases w <;> simp only [pubLoop, htx] <;>
        (refine ⟨fun rest e he => by simp at he, fun se he => ?_⟩
         simp only [PubEnd.ended.injEq] at he
         subst he
         simpa [SenderEnd.gw, SenderEnd.events, Outcome.gw, Outcome.events] using h)
    | some ch =>
      have hsend := Reachable.published p htx h
      have go : ∀ r1,
          (∀ rest e, (pubLoop k g p f r1 waits).after [.send ch p] = .acked rest e →
            Reachable k g (evs ++ e)) ∧
          (∀ se, (pubLoop k g p f r1 waits).after [.send ch p] = .ended se →
            Reachable k se.gw (evs ++ se.events)) := by
        intro r1
        obtain ⟨ih1, ih2⟩ := ih r1 _ hsend
        cases hpl : pubLoop k g p f r1 waits with
        | acked rest e =>
          refine ⟨fun rest2 e2 he => ?_, fun se he => by simp [PubEnd.after] at he⟩
          simp only [PubEnd.after, PubEnd.acked.injEq] at he
          rw [← he.2, ← List.append_assoc]
          exact ih1 rest e hpl
        | ended se0 =>
          refine ⟨fun rest2 e2 he => by simp [PubEnd.after] at he, fun se he => ?_⟩
          simp only [PubEnd.after, PubEnd.ended.injEq] at he
          have h0 := ih2 se0 hpl
          rw [← he]
          cases se0 with
          | stop o =>
            cases o <;>
              simpa [SenderEnd.after, SenderEnd.gw, SenderEnd.events, Outcome.after,
                Outcome.gw, Outcome.events] using h0
          | waiting f2 r2 g2 e2 =>
            simpa [SenderEnd.after, SenderEnd.gw, SenderEnd.events] using h0
      cases w with
      | ack a =>
        simp only [pubLoop, htx]
        split
        · refine ⟨fun rest e he => ?_, fun se he => by simp at he⟩
          simp only [PubEnd.acked.injEq] at he
          rw [← he.2]; exact hsend
        · exact go r
      | closed =>
        simp only [pubLoop, htx]
        exact go r
      | timeout =>
        simp only [pubLoop, htx]
        split
        · refine ⟨fun rest e he => by simp at he, fun se he => ?_⟩
          simp only [PubEnd.ended.injEq] at he
          subst he
          have ht := Reachable.tornDown (k := k) hsend
          simp only [teardown, htx] at ht
          simpa [SenderEnd.gw, SenderEnd.events, Outcome.gw, Outcome.events,
            List.append_assoc] using ht
        · exact go (r + 1)

/-- A run of the publisher from a reachable state ends in a reachable
state. -/
theorem senderLoop_reachable (k : Commands) (g : gateway) :
    ∀ (reads : List (Option (List Nat))) (f : Bool) (r : Nat) (waits : List AckWait)
      (evs : List Event), Reachable k g evs →
      Reachable k (senderLoop k g f r reads waits).gw
        (evs ++ (senderLoop k g f r reads waits).events) := by
  intro reads
  induction reads with
  | nil =>
    intro f r waits evs h
    simpa [senderLoop, SenderEnd.gw, SenderEnd.events] using h
  | cons rd reads ih =>
    intro f r waits evs h
    cases rd with
    | none =>
      simp only [senderLoop]
      split
      · have ht := Reachable.tornDown (k := k) h
        unfold teardown at ht
        cases htx : g.txBuff with
        | none => rw [htx] at ht; exact ht
        | some ch => rw [htx] at ht; exact ht
      · simpa [SenderEnd.gw, SenderEnd.events, Outcome.gw, Outcome.events] using h
    | some chunk =>
      simp only [senderLoop]
      obtain ⟨h1, h2⟩ := pubLoop_reachable k g
        { command := if f then k.publish ||| 0x80 else k.publish, payload := chunk } f
        waits r evs h
      split
      · rename_i rest e hpl
        have h3 := ih (!f) 0 rest _ (h1 rest e hpl)
        cases hsl : senderLoop k g (!f) 0 reads rest with
        | stop o =>
          rw [hsl] at h3
          cases o <;>
            simpa [SenderEnd.after, SenderEnd.gw, SenderEnd.events, Outcome.after,
              Outcome.gw, Outcome.events, List.append_assoc] using h3
        | waiting f2 r2 g2 e2 =>
          rw [hsl] at h3
          simpa [SenderEnd.after, SenderEnd.gw, SenderEnd.events, List.append_assoc] using h3
      · rename_i se hpl
        exact h2 se hpl

/-! ## No send on a closed queue -/

/-- Queues closed beforehand matter to the sends only through the queues the
events send on. -/
theorem sendsOpen_split (evs : List Event) :
    ∀ (cl1 cl2 : List Nat),
      sendsOpen (cl1 ++ cl2) evs = true ↔
        sendsOpen cl1 evs = true ∧ ∀ q ∈ sent evs, q.1 ∉ cl2 := by
  induction evs with
  | nil => intro cl1 cl2; simp [sendsOpen, sent]
  | cons e evs ih =>
    intro cl1 cl2
    cases e with
    | send ch p =>
      simp only [sendsOpen, sent, Bool.and_eq_true, decide_eq_true_eq, ih cl1 cl2,
        List.mem_append, List.mem_cons, forall_eq_or_imp, not_or]
      tauto
    | closeChan ch =>
      simp only [sendsOpen, sent]
      rw [← List.cons_append, ih (ch :: cl1) cl2]
    | makeChan ch => simpa [sendsOpen, sent] using ih cl1 cl2
    | goTxSerial => simpa [sendsOpen, sent] using ih cl1 cl2
    | goPacketSender => simpa [sendsOpen, sent] using ih cl1 cl2
    | dial a => simpa [sendsOpen, sent] using ih cl1 cl2
    | write c d => simpa [sendsOpen, sent] using ih cl1 cl2
    | closeConn c => simpa [sendsOpen, sent] using ih cl1 cl2
    | ackEvent f => simpa [sendsOpen, sent] using ih cl1 cl2
    | closeCom => simpa [sendsOpen, sent] using ih cl1 cl2
    | closeRx => simpa [sendsOpen, sent] using ih cl1 cl2

/-- The sends of two runs of events. -/
theorem sendsOpen_append (a b : List Event) :
    ∀ (cl : List Nat),
      sendsOpen cl (a ++ b) = (sendsOpen cl a && sendsOpen ((closedChans a).reverse ++ cl) b) := by
  induction a with
  | nil => intro cl; simp [sendsOpen, closedChans]
  | cons e a ih =>
    intro cl
    cases e <;>
      simp [sendsOpen, closedChans, ih, Bool.and_assoc, List.append_assoc]

/-- New events keep the sends on open queues when they do so among themselves
and send on no queue closed before. -/
theorem sendsOpen_extend (evs new : List Event) (h : sendsOpen [] evs = true)
    (hnew : sendsOpen [] new = true) (hq : ∀ q ∈ sent new, q.1 ∉ closedChans evs) :
    sendsOpen [] (evs ++ new) = true := by
  rw [sendsOpen_append, h, Bool.true_and]
  have := (sendsOpen_split new [] ((closedChans evs).reverse ++ [])).mpr
    ⟨hnew, fun q hqm => by simpa using hq q hqm⟩
  simpa using this

/-- The events of `handleRxPacket` in a sound state send only on queues that no
earlier event has closed, and on none after closing it. -/
theorem handleRxPacket_sendsOpen (k : Commands) (env : Upstream) (g : gateway) (p : Packet)
    (evs : List Event) (h : Sound g evs) :
    sendsOpen [] (handleRxPacket k env g p).events = true ∧
    ∀ q ∈ sent (handleRxPacket k env g p).events, q.1 ∉ closedChans evs := by
  obtain ⟨hw, hi, hq, hh, hc⟩ := h
  have hfresh : g.chans ∉ closedChans evs := fun hm =>
    Nat.lt_irrefl _ (hh _ (closedChans_subset _ _ hm))
  unfold handleRxPacket
  simp only []
  repeat' split
  all_goals
    (constructor <;>
      simp_all [Outcome.events, dropLink, sendsOpen, sent] <;>
      (try (cases g.uStream <;> cases g.txBuff <;> simp_all [sendsOpen, sent])))

/-- The events of `dropLink` keep the sends on open queues. -/
theorem dropLink_sendsOpen (g : gateway) : sendsOpen [] (dropLink g).2 = true := by
  unfold dropLink
  cases g.uStream <;> cases g.txBuff <;> rfl

/-- The events of `dropGateway` hold no send. -/
theorem dropGateway_sendsOpen (g : gateway) :
    sendsOpen [] (dropGateway g).events = true ∧ sent (dropGateway g).events = [] := by
  obtain ⟨s, f, tx, u, n, rx⟩ := g
  cases rx <;> cases u <;> cases tx <;> exact ⟨rfl, rfl⟩

/-- In every reachable state, no packet has been sent on a queue after that
queue was closed. -/
theorem Reachable_sendsOpen (k : Commands) (g : gateway) (evs : List Event)
    (h : Reachable k g evs) : sendsOpen [] evs = true := by
  induction h with
  | start => rfl
  | handled env p hr ih =>
    obtain ⟨h1, h2⟩ := handleRxPacket_sendsOpen k env _ p _ (Reachable_sound k _ _ hr)
    exact sendsOpen_extend _ _ ih h1 h2
  | linkDropped hr ih =>
    exact sendsOpen_extend _ _ ih (dropLink_sendsOpen _) (by simp [sent_dropLink])
  | @gatewayDropped g0 evs0 hr ih =>
    obtain ⟨hopen, hsent⟩ := dropGateway_sendsOpen g0
    exact sendsOpen_extend _ _ ih hopen (by simp [hsent])
  | @tornDown g0 evs0 hr ih =>
    have hsound := Reachable_sound k _ _ hr
    unfold teardown
    cases htx : g0.txBuff with
    | none => simpa [Outcome.events] using ih
    | some ch =>
      refine sendsOpen_extend _ _ ih ?_ ?_
      · simp only [Outcome.events, dropLink, htx]
        cases g0.uStream <;> simp [sendsOpen]
      · simp only [Outcome.events, sent, sent_dropLink, List.mem_singleton]
        intro q hq
        rw [hq]
        exact (hsound.queueOpen ch htx).2.2
  | @published p g0 evs0 ch htx hr ih =>
    have hsound := Reachable_sound k _ _ hr
    refine sendsOpen_extend _ _ ih (by simp [sendsOpen]) ?_
    simp only [sent, List.mem_singleton]
    intro q hq
    rw [hq]
    exact (hsound.queueOpen ch htx).2.2


/-- C20: in every reachable state that is Connected, the outbound queue handle
is non-nil and its queue has been made and not closed, and the upstream handle
is non-nil.  So for every packet and upstream behaviour `handleRxPacket`
neither blocks on a nil queue nor panics on a nil connection: it returns, or,
for an ACKNOWLEDGE that no publisher takes, it stays in the send on
`g.acknowledgeEvent`; for a PUBLISH, the branch that enqueues and writes
upstream, it returns; and with its events added no packet has ever been sent
on a queue closed before the send. -/
theorem C20_connected_has_open_queue_and_connection
    (k : Commands) (g : gateway) (evs : List Event)
    (h : Reachable k g evs) (hs : g.state = .Connected) :
    ∃ ch c, g.txBuff = some ch ∧ ch ∈ madeChans evs ∧ ch ∉ closedChans evs ∧
      g.uStream = some c ∧ sendsOpen [] evs = true ∧
      ∀ (env : Upstream) (p : Packet),
        ((∃ g1 e, handleRxPacket k env g p = .done g1 e) ∨
          (handleRxPacket k env g p = .stalled g [] ∧ env.ackTaken = false ∧
            p.command &&& 0x7F = k.acknowledge ∧ p.command &&& 0x7F ≠ k.publish)) ∧
        (p.command &&& 0x7F = k.publish → ∃ g1 e, handleRxPacket k env g p = .done g1 e) ∧
        sendsOpen [] (evs ++ (handleRxPacket k env g p).events) = true := by
  have hsound := Reachable_sound k g evs h
  obtain ⟨ch, c, htx, hu⟩ := hsound.wired hs
  obtain ⟨-, hmade, hopen⟩ := hsound.queueOpen ch htx
  exact ⟨ch, c, htx, hmade, hopen, hu, Reachable_sendsOpen k g evs h, fun env p =>
    ⟨handleRxPacket_ends k env g p hsound.wired,
      handleRxPacket_publish_returns k env g p hsound.wired,
      Reachable_sendsOpen k _ _ (Reachable.handled env p h)⟩⟩

/-! ## Worked examples: lifecycle, framing and publisher -/

/-- C12, amended, at a concrete input: the state after the sample CONNECT and
the sample DISCONNECT. -/
theorem C12_disconnected_witness :
    sampleAfterDisconnect.gw.state = .Disconnected ∧
    (sampleAfterDisconnect.gw.txBuff = none ∧
      (sampleAfterDisconnect.gw.uStream = none ∨
        ∃ c, sampleAfterDisconnect.gw.uStream = some c ∧
          c ∈ closedConns (([] ++ sampleAfterConnect.events) ++
            sampleAfterDisconnect.events))) :=
  ⟨by decide,
    C12_disconnected_queue_nil_connection_closed sampleCommands _ _
      (Reachable.handled sampleUpstream sampleDisconnect
        (Reachable.handled sampleUpstream sampleConnect Reachable.start))
      (by decide)⟩

/-- C13 at a concrete input: the session opened by the sample CONNECT is
dropped and the sample CONNECT is handled again. -/
theorem C13_session_reset_witness :
    (sampleAfterConnect.gw.state = .Connected ∧ sampleCommands.Distinct ∧
      sampleCommands.publish < 128 ∧
      sampleConnect.command &&& 0x7F = sampleCommands.connect ∧
      sampleConnect.payload.length = 6 ∧
      sampleUpstream.dial (dstStr sampleConnect.payload) = some 7) ∧
    ∃ ch c, sampleAfterConnect.gw.txBuff = some ch ∧
      sampleAfterConnect.gw.uStream = some c ∧
      (dropLink sampleAfterConnect.gw).2 = [.closeConn c, .closeChan ch] ∧
      (dropLink sampleAfterConnect.gw).1.txBuff = none ∧
      ∃ g2 evs q tail,
        handleRxPacket sampleCommands sampleUpstream (dropLink sampleAfterConnect.gw).1
          sampleConnect = .done g2 evs ∧
        g2.state = .Connected ∧ g2.expectedRxSeqFlag = false ∧ g2.uStream = some 7 ∧
        g2.txBuff = some q ∧ madeChans evs = [q] ∧ closedChans evs = [] ∧
        q ∉ chansOf (([] ++ sampleAfterConnect.events) ++ (dropLink sampleAfterConnect.gw).2) ∧
        .goPacketSender ∈ evs ∧
        (packetSender sampleCommands g2 (some [9, 9] :: []) []).events =
          .send q { length := 0, command := sampleCommands.publish, payload := [9, 9],
                    crc := 0 } :: tail ∧
        seqFlag { length := 0, command := sampleCommands.publish, payload := [9, 9],
                  crc := 0 } = false :=
  ⟨⟨by decide, by decide, by decide, by decide, rfl, rfl⟩,
    C13_session_reset_after_dropLink sampleCommands sampleUpstream sampleAfterConnect.gw
      ([] ++ sampleAfterConnect.events) sampleConnect 7 [9, 9] [] []
      (Reachable.handled sampleUpstream sampleConnect Reachable.start)
      (by decide) (by decide) (by decide) (by decide) rfl rfl⟩

/-- C14 at a concrete input: the counter at 5 in the sample session. -/
theorem C14_escalation_witness :
    (5 ≤ 5 ∧ sampleConnected.state = .Connected ∧ sampleConnected.txBuff = some 0) ∧
    ((5 ≤ 5 → sampleConnected.state = .Connected → ∀ ch, sampleConnected.txBuff = some ch →
      ∃ g1 evs,
        (∀ input, readerPass sampleCommands sampleUpstream sampleCrc 5 sampleConnected input =
          .stop (.done g1 evs)) ∧
        g1 = (dropLink sampleConnected).1 ∧ g1.state = .Disconnected ∧
        evs = .send ch { command := sampleCommands.disconnect } ::
          (dropLink sampleConnected).2 ∧
        sent evs = [(ch, { length := 0, command := sampleCommands.disconnect,
                           payload := [], crc := 0 })]) ∧
    (5 ≤ 5 → sampleConnected.state ≠ .Connected →
      ∀ input, readerPass sampleCommands sampleUpstream sampleCrc 5 sampleConnected input =
        framePass sampleCommands sampleUpstream sampleCrc 0 sampleConnected input) ∧
    (5 < 5 →
      ∀ input, readerPass sampleCommands sampleUpstream sampleCrc 5 sampleConnected input =
        framePass sampleCommands sampleUpstream sampleCrc 5 sampleConnected input)) :=
  ⟨⟨by decide, rfl, rfl⟩,
    C14_escalation_at_five sampleCommands sampleUpstream sampleCrc 5 sampleConnected⟩

/-- C15, amended, at a concrete input: the sample PUBLISH in flight in the
sample session with the retry counter at 2. -/
theorem C15_resend_witness :
    sampleConnected.txBuff = some 0 ∧
    ((2 + 1 < 5 →
      pubLoop sampleCommands sampleConnected samplePublish false 2 (.timeout :: []) =
        (pubLoop sampleCommands sampleConnected samplePublish false (2 + 1) []).after
          [.send 0 samplePublish]) ∧
    (∀ a, a ≠ false →
      pubLoop sampleCommands sampleConnected samplePublish false 2 (.ack a :: []) =
        (pubLoop sampleCommands sampleConnected samplePublish false 2 []).after
          [.send 0 samplePublish]) ∧
    (∀ r1, ∃ tail,
      (pubLoop sampleCommands sampleConnected samplePublish false r1 []).events =
        .send 0 samplePublish :: tail) ∧
    (2 + 1 < 5 →
      pubLoop sampleCommands sampleConnected samplePublish false 2 [.timeout] =
        .ended (.waiting false (2 + 1) sampleConnected
          [.send 0 samplePublish, .send 0 samplePublish])) ∧
    (∀ a, a ≠ false →
      pubLoop sampleCommands sampleConnected samplePublish false 2 [.ack a] =
        .ended (.waiting false 2 sampleConnected
          [.send 0 samplePublish, .send 0 samplePublish]))) :=
  ⟨rfl,
    C15_timeout_counts_mismatched_ack_does_not sampleCommands sampleConnected 0
      samplePublish false 2 [] rfl⟩

/-- C16 at a concrete input: two chunks, the first acknowledged after one
timeout, the second at once. -/
theorem C16_sequence_flag_witness :
    (sampleConnected.txBuff = some 0 ∧ sampleCommands.publish < 128 ∧
      roundsOpen 0 [([9, 9], [.timeout]), ([8], [])]) ∧
    ((∀ f chunk, seqFlag (publishPacket sampleCommands f chunk) = f ∧
      (publishPacket sampleCommands f chunk).command &&& 0x7F = sampleCommands.publish ∧
      (publishPacket sampleCommands f chunk).payload = chunk) ∧
    (∀ f r chunk reads pre rest, AckWait.ack f ∉ pre → r + pre.count AckWait.timeout < 5 →
      senderLoop sampleCommands sampleConnected f r (some chunk :: reads)
          (pre ++ .ack f :: rest) =
        (senderLoop sampleCommands sampleConnected (!f) 0 reads rest).after
          (List.replicate (pre.length + 1)
            (.send 0 (publishPacket sampleCommands f chunk)))) ∧
    packetSender sampleCommands sampleConnected
        ([([9, 9], [AckWait.timeout]), ([8], [])].map (fun r => some r.1))
        (roundWaits 0 [([9, 9], [.timeout]), ([8], [])]) =
      .waiting (decide ([([9, 9], [AckWait.timeout]), ([8], [])].length % 2 = 1)) 0
        sampleConnected
        (roundSends sampleCommands 0 0 [([9, 9], [.timeout]), ([8], [])])) :=
  ⟨⟨rfl, by decide, ⟨⟨by decide, by decide⟩, ⟨⟨by decide, by decide⟩, trivial⟩⟩⟩,
    C16_sequence_flag_alternates sampleCommands sampleConnected 0
      [([9, 9], [.timeout]), ([8], [])] rfl (by decide)
      ⟨⟨by decide, by decide⟩, ⟨⟨by decide, by decide⟩, trivial⟩⟩⟩

/-- C17 at a concrete input: command 3 with payload `[1, 2]`, whose sample
checksum is 13, received in the initial state. -/
theorem C17_framing_round_trip_witness :
    ([1, 2].length ≤ 250 ∧
      (∀ x, sampleCrc { length := [1, 2].length + 5, command := 3, payload := [1, 2],
                        crc := x } = 13) ∧
      13 < 2 ^ 32) ∧
    (framePass sampleCommands sampleUpstream sampleCrc 4 Listen
        (.byte ([1, 2].length + 5) :: .byte 3 ::
          ([1, 2].map Rx.byte ++ ((le32 13).map Rx.byte ++ [.byte 9]))) =
      (match handleRxPacket sampleCommands sampleUpstream Listen
          { length := [1, 2].length + 5, command := 3, payload := [1, 2], crc := 13 } with
        | .done g1 evs => .next 0 g1 [.byte 9] evs
        | o => .stop o) ∧
    (.byte ([1, 2].length + 5) :: .byte 3 ::
        ([1, 2].map Rx.byte ++ ((le32 13).map Rx.byte ++ [.byte 9]))).length
      = ([1, 2].length + 6) + [Rx.byte 9].length ∧
    [1, 2].length + 5 < 256) :=
  ⟨⟨by decide, fun _ => rfl, by decide⟩,
    C17_framing_round_trip sampleCommands sampleUpstream sampleCrc 4 Listen 3 [1, 2] 13
      [.byte 9] (by decide) (fun _ => rfl) (by decide)⟩

/-- C18, amended, at a concrete input: `dropGateway` in the sample session,
and dispatch in the state it leaves. -/
theorem C18_first_dropGateway_witness :
    (sampleConnected.rxClosed = false ∧ sampleShutDown.state = .TransportNotReady) ∧
    ((∃ g1 e, dropGateway sampleConnected = .done g1 e ∧ g1.state = .TransportNotReady ∧
      g1.txBuff = none ∧ g1.rxClosed = true ∧
      ∀ ps, handleAll sampleCommands sampleUpstream g1 ps = .done g1 []) ∧
    (∀ p, handleRxPacket sampleCommands sampleUpstream sampleShutDown p =
      .done sampleShutDown []) ∧
    (∀ ps, handleAll sampleCommands sampleUpstream sampleShutDown ps =
      .done sampleShutDown [])) :=
  ⟨⟨rfl, rfl⟩,
    C18_first_dropGateway_is_terminal sampleCommands sampleUpstream sampleConnected
      sampleShutDown rfl rfl⟩

/-- C19 at a concrete input: length byte 2, command 3 and the checksum bytes
of 5, the sample checksum of that packet. -/
theorem C19_short_length_witness :
    (2 < 5 ∧ [5, 0, 0, 0].length = 4 ∧
      sampleCrc { length := 2, command := 3, payload := [], crc := uint32LE [5, 0, 0, 0] }
        = uint32LE [5, 0, 0, 0]) ∧
    (receiveFrame (.byte 2 :: .byte 3 :: ([5, 0, 0, 0].map Rx.byte ++ [.byte 9])) =
      .got { length := 2, command := 3, payload := [], crc := uint32LE [5, 0, 0, 0] }
        [.byte 9] ∧
    receiveFrame (.byte 5 :: .byte 3 :: ([5, 0, 0, 0].map Rx.byte ++ [.byte 9])) =
      .got { length := 5, command := 3, payload := [], crc := uint32LE [5, 0, 0, 0] }
        [.byte 9] ∧
    framePass sampleCommands sampleUpstream sampleCrc 1 sampleConnected
        (.byte 2 :: .byte 3 :: ([5, 0, 0, 0].map Rx.byte ++ [.byte 9])) =
      (match handleRxPacket sampleCommands sampleUpstream sampleConnected
          { length := 2, command := 3, payload := [], crc := uint32LE [5, 0, 0, 0] } with
        | .done g1 evs => .next 0 g1 [.byte 9] evs
        | o => .stop o) ∧
    handleRxPacket sampleCommands sampleUpstream sampleConnected
        { length := 2, command := 3, payload := [], crc := uint32LE [5, 0, 0, 0] } =
      handleRxPacket sampleCommands sampleUpstream sampleConnected
        { length := 5, command := 3, payload := [], crc := uint32LE [5, 0, 0, 0] }) :=
  ⟨⟨by decide, rfl, by decide⟩,
    C19_short_length_accepted sampleCommands sampleUpstream sampleCrc 1 sampleConnected
      2 3 [5, 0, 0, 0] [.byte 9] (by decide) rfl (by decide)⟩

/-- C20 at a concrete input: the session opened by the sample CONNECT. -/
theorem C20_connected_witness :
    sampleAfterConnect.gw.state = .Connected ∧
    ∃ ch c, sampleAfterConnect.gw.txBuff = some ch ∧
      ch ∈ madeChans ([] ++ sampleAfterConnect.events) ∧
      ch ∉ closedChans ([] ++ sampleAfterConnect.events) ∧
      sampleAfterConnect.gw.uStream = some c ∧
      sendsOpen [] ([] ++ sampleAfterConnect.events) = true ∧
      ∀ (env : Upstream) (p : Packet),
        ((∃ g1 e, handleRxPacket sampleCommands env sampleAfterConnect.gw p = .done g1 e) ∨
          (handleRxPacket sampleCommands env sampleAfterConnect.gw p =
              .stalled sampleAfterConnect.gw [] ∧ env.ackTaken = false ∧
            p.command &&& 0x7F = sampleCommands.acknowledge ∧
            p.command &&& 0x7F ≠ sampleCommands.publish)) ∧
        (p.command &&& 0x7F = sampleCommands.publish →
          ∃ g1 e, handleRxPacket sampleCommands env sampleAfterConnect.gw p = .done g1 e) ∧
        sendsOpen [] (([] ++ sampleAfterConnect.events) ++
          (handleRxPacket sampleCommands env sampleAfterConnect.gw p).events) = true :=
  ⟨by decide,
    C20_connected_has_open_queue_and_connection sampleCommands sampleAfterConnect.gw
      ([] ++ sampleAfterConnect.events)
      (Reachable.handled sampleUpstream sampleConnect Reachable.start) (by decide)⟩

end protocol
